import Mathlib

/-!
Shallow embedding of the OCED stock-assessment weekly covered-call pipeline
(`massive_tracker`): market-data resolution (`options_chain.py`, `store.py`),
the weekly picker (`picker.py`), the promotion gate (`promotion.py`), the
realtime trigger engine and websocket client (`ws_client.py`), and the
streaming ingestion handler (`ws_ingest.py`).

Conventions used throughout:
* Python floats are embedded as `ℚ`; `round(x, 2)` is embedded as
  round-half-to-even at two decimals (`pyRound2`), matching Python's `round`.
* `None` becomes `Option.none`; fallible calls return `Except String`.
* Python truthiness (`a or b` falls through on `None`, `0`, and `""`) is
  embedded by `pyOrQ` / `pyOrS` / `pyOrQD` / `pyOrSD`.
* Wall-clock instants are embedded as `ℚ` (seconds); ISO-8601 timestamp
  strings that only label rows (never compared numerically) stay `String`.
-/

/-- Python `round` to 2 decimal places: round half to even (banker's rounding)
on the scaled value, as in `round(x, 2)`. -/
def pyRound2 (x : ℚ) : ℚ :=
  let scaled : ℚ := x * 100
  let f : ℤ := ⌊scaled⌋
  let r : ℚ := scaled - f
  let n : ℤ :=
    if r < 1/2 then f
    else if 1/2 < r then f + 1
    else if f % 2 = 0 then f else f + 1
  (n : ℚ) / 100

/-- Python `a or b` on optional numbers: `a` unless `a` is `None` or `0`. -/
def pyOrQ (a b : Option ℚ) : Option ℚ :=
  match a with
  | some x => if x = 0 then b else some x
  | none => b

/-- Python `a or d` where `a` is an optional number and `d` a plain default. -/
def pyOrQD (a : Option ℚ) (d : ℚ) : ℚ :=
  match a with
  | some x => if x = 0 then d else x
  | none => d

/-- Python `a or b` on optional strings: `a` unless `a` is `None` or `""`. -/
def pyOrS (a b : Option String) : Option String :=
  match a with
  | some s => if s = "" then b else some s
  | none => b

/-- Python `a or d` where `a` is an optional string and `d` a plain default. -/
def pyOrSD (a : Option String) (d : String) : String :=
  match a with
  | some s => if s = "" then d else s
  | none => d

/-- Python truthiness of an optional string (`if not src`). -/
def truthyS (a : Option String) : Bool :=
  match a with
  | some s => s ≠ ""
  | none => false

/-- Python `str.strip()`: drop leading and trailing whitespace (implemented
structurally on the character list so that proofs can evaluate it). -/
def pyStrip (s : String) : String :=
  ⟨((s.data.dropWhile Char.isWhitespace).reverse.dropWhile Char.isWhitespace).reverse⟩

/-- Python `str.upper()` (structural). -/
def pyUpper (s : String) : String := ⟨s.data.map Char.toUpper⟩

/-- Python `str.lower()` (structural). -/
def pyLower (s : String) : String := ⟨s.data.map Char.toLower⟩

/-- Python `str.startswith(pre)` (structural). -/
def pyStartsWith (s pre : String) : Bool := pre.data.isPrefixOf s.data

/-- `ticker.upper().strip()` as used throughout `store.py` and `picker.py`. -/
def pyUpperStrip (s : String) : String := pyUpper (pyStrip s)

/-- `_safe_div` from picker.py: `n / d` unless either side is `None` or `d`
is `0`, in which case `None`. -/
def safe_div (n d : Option ℚ) : Option ℚ :=
  match n, d with
  | some nv, some dv => if dv = 0 then none else some (nv / dv)
  | _, _ => none

/-- Substring test on character lists (used for `"option" in class_val`). -/
def listContainsSub (hay needle : List Char) : Bool :=
  match hay with
  | [] => needle.isEmpty
  | _ :: t => needle.isPrefixOf hay || listContainsSub t needle

/-- Python `needle in hay` for strings. -/
def strContains (hay needle : String) : Bool :=
  listContainsSub hay.toList needle.toList

/-- Stable insertion of `a` into `l`, placing `a` before the first element `b`
with `le a b`; building block of the stable sort used to embed Python's
stable `list.sort`. -/
def orderedInsertB {α : Type} (le : α → α → Bool) (a : α) : List α → List α
  | [] => [a]
  | b :: l => if le a b then a :: b :: l else b :: orderedInsertB le a l

/-- Stable sort by a boolean `le`; embeds Python's stable `list.sort(key=...)`
(for a total `le`, equal elements keep their original relative order). -/
def insertionSortB {α : Type} (le : α → α → Bool) : List α → List α
  | [] => []
  | a :: l => orderedInsertB le a (insertionSortB le l)

/-- Pair each element with its position starting at `i` (Python `enumerate`). -/
def enumFromQ {α : Type} (i : ℕ) : List α → List (ℕ × α)
  | [] => []
  | a :: l => (i, a) :: enumFromQ (i + 1) l

/-- Pair each element with its 0-based position. -/
def enumQ {α : Type} (l : List α) : List (ℕ × α) := enumFromQ 0 l

/-- First index of `a` in the list, if present (Python `list.index`). -/
def idxOfQ {α : Type} [DecidableEq α] (a : α) : List α → Option ℕ
  | [] => none
  | b :: l => if b = a then some 0 else (idxOfQ a l).map (· + 1)

/-! ## options_chain.py and the chain cache in store.py -/

namespace OptionsChainMod

/-- A raw quote dictionary as returned by the live chain snapshot source,
with the alternative key spellings probed by `_normalize_quote`
(`details`, `last_quote` and `greeks` sub-dictionaries are flattened into
prefixed fields). -/
structure RawQuote where
  strike : Option ℚ := none
  strike_price : Option ℚ := none
  strikePrice : Option ℚ := none
  details_strike_price : Option ℚ := none
  bid : Option ℚ := none
  best_bid : Option ℚ := none
  bestBid : Option ℚ := none
  last_quote_bid : Option ℚ := none
  ask : Option ℚ := none
  best_ask : Option ℚ := none
  bestAsk : Option ℚ := none
  last_quote_ask : Option ℚ := none
  mid : Option ℚ := none
  midpoint : Option ℚ := none
  mark : Option ℚ := none
  last_quote_midpoint : Option ℚ := none
  oi : Option ℚ := none
  open_interest : Option ℚ := none
  openInterest : Option ℚ := none
  iv : Option ℚ := none
  implied_vol : Option ℚ := none
  impliedVol : Option ℚ := none
  implied_volatility : Option ℚ := none
  vol : Option ℚ := none
  volume : Option ℚ := none
  day_volume : Option ℚ := none
  delta : Option ℚ := none
  greeks_delta : Option ℚ := none
  contract : Option String := none
  details_ticker : Option String := none
  ticker : Option String := none
  deriving DecidableEq

/-- A normalized chain quote dictionary: the output shape of
`_normalize_quote`, also used for cached chain rows read back from sqlite
(those carry `ts` and lack `delta`/`contract`/`last`, i.e. those keys are
`none`). -/
structure CQuote where
  strike : Option ℚ := none
  bid : Option ℚ := none
  ask : Option ℚ := none
  mid : Option ℚ := none
  oi : Option ℚ := none
  iv : Option ℚ := none
  vol : Option ℚ := none
  delta : Option ℚ := none
  contract : Option String := none
  last : Option ℚ := none
  ts : Option ℚ := none
  deriving DecidableEq

/-- `_normalize_quote` from options_chain.py: key-alternative fallbacks use
Python `or` (so a `0` value also falls through), and `mid` is derived from
`(bid+ask)/2` when absent. -/
def normalize_quote (raw : RawQuote) : CQuote :=
  let strike := pyOrQ raw.strike (pyOrQ raw.strike_price (pyOrQ raw.strikePrice raw.details_strike_price))
  let bid := pyOrQ raw.bid (pyOrQ raw.best_bid (pyOrQ raw.bestBid raw.last_quote_bid))
  let ask := pyOrQ raw.ask (pyOrQ raw.best_ask (pyOrQ raw.bestAsk raw.last_quote_ask))
  let mid0 := pyOrQ raw.mid (pyOrQ raw.midpoint (pyOrQ raw.mark raw.last_quote_midpoint))
  let oi := pyOrQ raw.oi (pyOrQ raw.open_interest raw.openInterest)
  let iv := pyOrQ raw.iv (pyOrQ raw.implied_vol (pyOrQ raw.impliedVol raw.implied_volatility))
  let vol := pyOrQ raw.vol (pyOrQ raw.volume raw.day_volume)
  let delta := pyOrQ raw.delta raw.greeks_delta
  let contract := pyOrS raw.contract (pyOrS raw.details_ticker raw.ticker)
  let mid :=
    match mid0, bid, ask with
    | none, some b, some a => some ((b + a) / 2)
    | m, _, _ => m
  { strike := strike, bid := bid, ask := ask, mid := mid, oi := oi, iv := iv,
    vol := vol, delta := delta, contract := contract, last := none, ts := none }

/-- `_fetch_from_massive`: normalize the raw snapshot rows and drop rows with
no strike; a snapshot-source exception is embedded as an empty raw list. -/
def fetch_from_massive (rawChain : List RawQuote) : List CQuote :=
  ((rawChain.map normalize_quote).filter (fun q => q.strike ≠ none))

/-- One cached row of the sqlite `option_chains` table
(PRIMARY KEY (ticker, expiry, strike); `ts` is the as-of instant). -/
structure ChainRow where
  ticker : String
  expiry : String
  strike : ℚ
  bid : Option ℚ := none
  ask : Option ℚ := none
  mid : Option ℚ := none
  oi : Option ℚ := none
  iv : Option ℚ := none
  vol : Option ℚ := none
  ts : ℚ
  deriving DecidableEq

/-- `INSERT OR REPLACE` of one row keyed by (ticker, expiry, strike). -/
def replaceChainRow (tbl : List ChainRow) (r : ChainRow) : List ChainRow :=
  (tbl.filter (fun x => ¬(x.ticker = r.ticker ∧ x.expiry = r.expiry ∧ x.strike = r.strike))) ++ [r]

/-- Build one `option_chains` row from a quote dictionary, skipping quotes
whose strike cannot be read (the `float(r.get("strike"))` try/except). -/
def chainRowOf (tickerN expiryN : String) (ts : ℚ) (r : CQuote) : Option ChainRow :=
  match r.strike with
  | none => none
  | some s => some { ticker := tickerN, expiry := expiryN, strike := s,
                     bid := r.bid, ask := r.ask, mid := r.mid, oi := r.oi,
                     iv := r.iv, vol := r.vol, ts := ts }

/-- `DB.upsert_option_chain_rows`: normalize the key, drop rows whose strike
cannot be read, and upsert each remaining row on the natural key. -/
def upsert_option_chain_rows (tbl : List ChainRow) (ticker expiry : String)
    (rows : List CQuote) (ts : ℚ) : List ChainRow :=
  let clean_rows : List ChainRow :=
    rows.filterMap (chainRowOf (pyUpperStrip ticker) (pyStrip expiry) ts)
  if rows.isEmpty then tbl
  else if clean_rows.isEmpty then tbl
  else clean_rows.foldl replaceChainRow tbl

/-- `DB.get_option_chain`: cached rows for (ticker, expiry) no older than
`max_age_minutes`, ordered by strike, projected to quote dictionaries
(cached rows carry `ts` but no `delta`/`contract`/`last` keys). -/
def db_get_option_chain (tbl : List ChainRow) (ticker expiry : String)
    (max_age_minutes : ℚ) (now : ℚ) : List CQuote :=
  let tickerN := pyUpperStrip ticker
  let expiryN := pyStrip expiry
  let rows := tbl.filter (fun r =>
    r.ticker = tickerN ∧ r.expiry = expiryN ∧ now - max_age_minutes * 60 ≤ r.ts)
  let sorted := insertionSortB (fun a b => a.strike ≤ b.strike) rows
  sorted.map (fun r =>
    { strike := some r.strike, bid := r.bid, ask := r.ask, mid := r.mid,
      oi := r.oi, iv := r.iv, vol := r.vol, delta := none, contract := none,
      last := none, ts := some r.ts })

/-- One entry of a flatfile strike-candidate list, as consumed by
`_fetch_from_flatfiles` (bid/ask are absent there; mid is the bar close). -/
structure FlatBar where
  strike : Option ℚ := none
  close : Option ℚ := none
  oi : Option ℚ := none
  iv : Option ℚ := none
  volume : Option ℚ := none
  deriving DecidableEq

/-- `_fetch_from_flatfiles`: bootstrap quotes from flatfile bars, with
`bid = ask = None` and `mid` taken from the bar close. -/
def fetch_from_flatfiles (bars : List FlatBar) : List CQuote :=
  bars.filterMap (fun b =>
    match b.strike with
    | none => none
    | some s => some { strike := some s, bid := none, ask := none,
                       mid := b.close, oi := b.oi, iv := b.iv, vol := b.volume,
                       delta := none, contract := none, last := none, ts := none })

/-- External fetch environment for one `get_option_chain` call: the raw live
snapshot (empty on failure) and the flatfile bootstrap bars. -/
structure ChainEnv where
  massiveRaw : List RawQuote := []
  flatBars : List FlatBar := []

/-- Result of `get_option_chain` with `return_source=True`, together with the
updated cache table and whether the live chain source was invoked. -/
structure ChainFetchResult where
  quotes : List CQuote
  source : String
  tbl : List ChainRow
  calledLive : Bool
  deriving DecidableEq

/-- `get_option_chain` from options_chain.py (with `return_source=True`):
serve fresh cached rows when present, otherwise fetch live (falling back to
flatfile bootstrap) and persist any non-empty result back to the cache. -/
def get_option_chain (tbl : List ChainRow) (env : ChainEnv) (ticker expiry : String)
    (max_age_minutes : ℚ := 60) (use_cache : Bool := true) (now : ℚ := 0) :
    ChainFetchResult :=
  let cached := db_get_option_chain tbl ticker expiry max_age_minutes now
  if use_cache ∧ ¬cached.isEmpty then
    { quotes := cached, source := "cache:option_chain_snapshot", tbl := tbl, calledLive := false }
  else
    let live := fetch_from_massive env.massiveRaw
    let (quotes, source) :=
      if ¬live.isEmpty then (live, "massive_rest:option_chain_snapshot")
      else
        let flat := fetch_from_flatfiles env.flatBars
        if ¬flat.isEmpty then (flat, "flatfile:chain_bootstrap")
        else (flat, "missing_chain")
    let tbl2 := if ¬quotes.isEmpty then upsert_option_chain_rows tbl ticker expiry quotes now else tbl
    { quotes := quotes, source := source, tbl := tbl2, calledLive := true }

end OptionsChainMod

/-! ## picker.py: lane classification, strike/contract selection, scoring -/

namespace PickerMod

open OptionsChainMod

/-- Latest OCED score row for a ticker (external scorer output read by the
picker), restricted to the fields picker.py reads. -/
structure OcedRow where
  covered_call_suitability : Option ℚ := none
  ann_vol : Option ℚ := none
  max_drawdown : Option ℚ := none
  fft_entropy : Option ℚ := none
  fractal_roughness : Option ℚ := none
  deriving DecidableEq

/-- Latest stock-ML signal row for a ticker, restricted to the fields
picker.py and promotion.py read. -/
structure MlRow where
  expected_move_5d : Option ℚ := none
  regime_score : Option ℚ := none
  downside_risk_5d : Option ℚ := none
  deriving DecidableEq

/-- A weekly-pick dictionary / `weekly_picks` row (the picker builds exactly
this shape and `DB.upsert_weekly_pick` persists it; `fetch_latest_weekly_picks`
reads it back for the promotion gate). -/
structure PickRow where
  ts : Option String := none
  ticker : Option String := none
  category : Option String := none
  lane : Option String := none
  rank : Option ℚ := none
  score : Option ℚ := none
  rank_score : Option ℚ := none
  price : Option ℚ := none
  price_ts : Option ℚ := none
  price_source : Option String := none
  pack_100_cost : Option ℚ := none
  expiry : Option String := none
  strike : Option ℚ := none
  option_contract : Option String := none
  call_bid : Option ℚ := none
  call_ask : Option ℚ := none
  call_mid : Option ℚ := none
  prem_100 : Option ℚ := none
  prem_yield : Option ℚ := none
  premium_100 : Option ℚ := none
  premium_yield : Option ℚ := none
  premium_source : Option String := none
  strike_source : Option String := none
  est_weekly_prem_100 : Option ℚ := none
  prem_yield_weekly : Option ℚ := none
  safest_flag : Option ℚ := none
  fft_status : Option String := none
  fractal_status : Option String := none
  source : Option String := none
  final_rank_score : Option ℚ := none
  oced_rank_score : Option ℚ := none
  llm_rank_score : Option ℚ := none
  combined_rank_score : Option ℚ := none
  recommended_expiry : Option String := none
  recommended_strike : Option ℚ := none
  recommended_premium_100 : Option ℚ := none
  recommended_spread_pct : Option ℚ := none
  bars_1m_count : Option ℚ := none
  chain_source : Option String := none
  prem_source : Option String := none
  bars_1m_source : Option String := none
  premium_status : Option String := none
  used_fallback : Option ℚ := none
  missing_price : Option ℚ := none
  missing_chain : Option ℚ := none
  chain_bid : Option ℚ := none
  chain_ask : Option ℚ := none
  chain_mid : Option ℚ := none
  option_source : Option String := none
  is_fallback : Option ℚ := none
  deriving DecidableEq

/-- `LANE_MIN_YIELD.get(lane, LANE_MIN_YIELD.get("AGGRESSIVE", 0.0))`. -/
def laneMinYield (lane : String) : ℚ :=
  if lane = "SAFE" then 4/1000
  else if lane = "SAFE_HIGH" then 6/1000
  else if lane = "SAFE_HIGH_PAYOUT" then 10/1000
  else if lane = "AGGRESSIVE" then 10/1000
  else 10/1000

/-- `otm_map.get(lane.upper(), 0.04)` from `_select_chain_option`. -/
def laneOtm (laneUpper : String) : ℚ :=
  if laneUpper = "SAFE" then 2/100
  else if laneUpper = "SAFE_HIGH" then 3/100
  else if laneUpper = "SAFE_HIGH_PAYOUT" then 4/100
  else if laneUpper = "AGGRESSIVE" then 5/100
  else 4/100

/-- Per-lane target delta from `_select_chain_option` (default 0.30). -/
def laneTargetDelta (laneUpper : String) : ℚ :=
  if laneUpper = "SAFE" then 20/100
  else if laneUpper = "SAFE_HIGH" then 25/100
  else if laneUpper = "SAFE_HIGH_PAYOUT" then 30/100
  else if laneUpper = "AGGRESSIVE" then 35/100
  else 30/100

/-- `_lane_from_ann_vol` from picker.py. -/
def lane_from_ann_vol (ann_vol : Option ℚ) (category : Option String) : String :=
  match ann_vol with
  | some v => if v ≤ 25/100 then "SAFE" else if v ≤ 45/100 then "SAFE_HIGH" else "AGGRESSIVE"
  | none =>
    match category with
    | some "ETF" => "SAFE"
    | some "BANK" => "SAFE_HIGH"
    | some "FINTECH" => "SAFE_HIGH"
    | some "INFRA" => "SAFE_HIGH"
    | some "CRYPTO" => "AGGRESSIVE"
    | some "SPEC" => "AGGRESSIVE"
    | _ => "SAFE_HIGH"

/-- `_lane_from_metrics` from picker.py (`SAFE_CC_THRESHOLD = 0.59`,
`SAFE_VOL_THRESHOLD = SAFE_MDD_THRESHOLD = 0.20`,
`SAFE_HIGH_CC_THRESHOLD = 0.58`, `SAFE_HIGH_VOL_THRESHOLD = 0.35`). -/
def lane_from_metrics (oced : Option OcedRow) : String :=
  match oced with
  | none => "AGGRESSIVE"
  | some o =>
    let cc := o.covered_call_suitability
    let av := o.ann_vol
    let dd := o.max_drawdown
    match cc, av, dd with
    | some c, some v, some d =>
      if 59/100 ≤ c ∧ v ≤ 20/100 ∧ d ≤ 20/100 then "SAFE"
      else if 58/100 ≤ c ∧ v ≤ 35/100 then "SAFE_HIGH_PAYOUT"
      else lane_from_ann_vol (some v) none
    | some c, some v, none =>
      if 58/100 ≤ c ∧ v ≤ 35/100 then "SAFE_HIGH_PAYOUT"
      else lane_from_ann_vol (some v) none
    | _, some v, _ => lane_from_ann_vol (some v) none
    | _, none, _ => "AGGRESSIVE"

/-- `_resolve_lane`: lanes outside `LANE_SAFE` collapse to AGGRESSIVE. -/
def resolve_lane (oced : Option OcedRow) : String :=
  let lane := pyUpper (lane_from_metrics oced)
  if lane = "SAFE" ∨ lane = "SAFE_HIGH" ∨ lane = "SAFE_HIGH_PAYOUT" ∨ lane = "AGGRESSIVE"
  then lane else "AGGRESSIVE"

/-- `_signal_status_from_bars` from picker.py. -/
def signal_status_from_bars (count : ℚ) : String :=
  if 1950 ≤ count then "weekly_stable"
  else if 390 ≤ count then "daily_stable"
  else if 120 ≤ count then "intraday_ok"
  else "insufficient_history"

/-- `_final_rank_score`: yield-weighted base score with a volatility plus
drawdown risk penalty. -/
def final_rank_score_fn (prem_yield : Option ℚ) (oced : Option OcedRow) : ℚ :=
  let yield_score := prem_yield.getD 0
  let cc_suit := match oced with | some o => pyOrQD o.covered_call_suitability 0 | none => 0
  let ann_vol := match oced with | some o => pyOrQD o.ann_vol 0 | none => 0
  let max_dd := match oced with | some o => pyOrQD o.max_drawdown 0 | none => 0
  2 * yield_score + cc_suit - 3/4 * (ann_vol + max_dd)

/-- `_ml_rank_adjust`: regime boost minus a penalty on negative downside. -/
def ml_rank_adjust (regime_score downside_risk_5d : Option ℚ) : ℚ :=
  let regime := regime_score.getD 0
  let downside := downside_risk_5d.getD 0
  5 * regime - 20 * |min downside 0|

/-- `select_strike` from stock_ml.py: spot plus a lane-weighted expected
move (1.0 / 0.9 / 0.8 of the 5-day expected move, defaulting to 2% of spot). -/
def select_strike (price : Option ℚ) (expected_move_5d : Option ℚ) (lane : String) : Option ℚ :=
  match price with
  | none => none
  | some p =>
    let move := expected_move_5d.getD (p * 2/100)
    let laneU := pyUpper lane
    let k : ℚ := if laneU = "SAFE" then 1 else if laneU = "SAFE_HIGH_PAYOUT" then 9/10 else 8/10
    some (p + k * move)

/-- `_option_source_tag` from picker.py. -/
def option_source_tag (chain_source : Option String) (quotes : List CQuote) : String :=
  if quotes.isEmpty then "none"
  else
    let src := pyStrip (pyOrSD chain_source "")
    if src = "" then "massive_rest:chain_snapshot"
    else if pyStartsWith src "cache:" then "cache:option_chain_snapshot"
    else if strContains src "flatfile" then "flatfile:chain_bootstrap"
    else if strContains src "massive_rest" then "massive_rest:option_chain_snapshot"
    else src

/-- A candidate entry built inside `_select_chain_option`. -/
structure Candidate where
  strike : ℚ
  mid : ℚ
  bid : Option ℚ := none
  ask : Option ℚ := none
  prem_100 : ℚ
  prem_yield : ℚ
  spread_pct : Option ℚ := none
  delta : Option ℚ := none
  contract : Option String := none
  prem_source : String
  strike_source : String := ""
  deriving DecidableEq

/-- Strict lexicographic order on sort keys (used to embed Python `min`). -/
def lexLt (a b : ℚ × ℚ) : Bool := a.1 < b.1 ∨ (a.1 = b.1 ∧ a.2 < b.2)

/-- Python `min(l, key=...)`: the first element attaining the minimal key. -/
def minByFirst {α : Type} (key : α → ℚ × ℚ) : List α → Option α
  | [] => none
  | x :: xs => some (xs.foldl (fun best y => if lexLt (key y) (key best) then y else best) x)

/-- The per-quote filter body of `_select_chain_option`: out-of-the-money
floor, mid derivation (`mid`, else `(bid+ask)/2`, else `last`), positive-mid,
spread-percentage cap (`MAX_SPREAD_PCT = 0.20`), delta band (0.05..0.45, only
when delta is present), premium rounding and minimum-yield floor. -/
def selectCandidate (min_yield min_otm price : ℚ) (q : CQuote) : Option Candidate :=
  match q.strike with
  | none => none
  | some strike_f =>
    if strike_f < price * min_otm then none
    else
      let call_mid1 : Option ℚ :=
        match q.mid with
        | some m => some m
        | none => match q.bid, q.ask with
          | some b, some a => some ((b + a) / 2)
          | _, _ => none
      let call_mid : Option ℚ :=
        match call_mid1 with
        | some m => some m
        | none => q.last
      match call_mid with
      | none => none
      | some cm =>
        if cm ≤ 0 then none
        else
          let spread_pct : Option ℚ :=
            match q.bid, q.ask with
            | some b, some a => some ((a - b) / max ((a + b) / 2) (1/1000000))
            | _, _ => none
          let spreadBad : Bool :=
            match spread_pct with | some sp => decide (20/100 < sp) | none => false
          let deltaBad : Bool :=
            match q.delta with | some d => decide (d < 5/100 ∨ 45/100 < d) | none => false
          if spreadBad then none
          else if deltaBad then none
          else
            let prem_100 := pyRound2 (cm * 100)
            match safe_div (some prem_100) (some (price * 100)) with
            | none => none
            | some py =>
              if py ≤ 0 then none
              else if py < min_yield then none
              else
                some { strike := strike_f, mid := cm, bid := q.bid, ask := q.ask,
                       prem_100 := prem_100, prem_yield := py,
                       spread_pct := spread_pct, delta := q.delta,
                       contract := q.contract,
                       prem_source := if q.mid ≠ none ∨ (q.bid ≠ none ∧ q.ask ≠ none)
                                      then "chain_mid" else "last" }

/-- `_select_chain_option` from picker.py: filter the chain to qualifying
candidates, then pick by nearest lane target delta (when any candidate has a
delta) or nearest target strike, with best yield breaking ties. -/
def select_chain_option (price : Option ℚ) (lane : String)
    (target_strike : Option ℚ) (quotes : List CQuote) :
    Option Candidate × String :=
  match price with
  | none => (none, "missing_price")
  | some p =>
    if quotes.isEmpty then (none, "missing_option_chain")
    else
      let min_yield := laneMinYield lane
      let min_otm := 1 + laneOtm (pyUpper lane)
      let candidates := quotes.filterMap (selectCandidate min_yield min_otm p)
      if candidates.isEmpty then (none, "no_chain_match")
      else
        let delta_candidates := candidates.filter (fun c => c.delta ≠ none)
        if ¬delta_candidates.isEmpty then
          let target_delta := laneTargetDelta (pyUpper lane)
          match minByFirst (fun c => (|pyOrQD c.delta 0 - target_delta|, -(pyOrQD (some c.prem_yield) 0))) delta_candidates with
          | some best => (some { best with strike_source := "delta_target_v1" }, "ok")
          | none => (none, "no_chain_match")
        else
          let target := match target_strike with
            | some t => if t = 0 then p * (1 + laneOtm (pyUpper lane)) else t
            | none => p * (1 + laneOtm (pyUpper lane))
          match minByFirst (fun c => (|pyOrQD (some c.strike) 0 - target|, -(pyOrQD (some c.prem_yield) 0))) candidates with
          | some best => (some { best with strike_source := "lane_otm_ranker_v1" }, "ok")
          | none => (none, "no_chain_match")

end PickerMod

namespace PickerMod

open OptionsChainMod

/-- Result shape of `_price_with_source`. -/
structure PriceInfo where
  price : Option ℚ := none
  price_ts : Option ℚ := none
  price_source : Option String := none
  is_fallback : ℚ := 0
  missing_price : ℚ := 0
  deriving DecidableEq

/-- `_is_recent`: a timestamp is recent when present, parseable and at most
`max_age_minutes` old (unparseable timestamps are embedded as `none`). -/
def is_recent (ts : Option ℚ) (max_age_minutes : ℚ) (now : ℚ) : Bool :=
  match ts with
  | none => false
  | some t => decide (now - t ≤ max_age_minutes * 60)

/-- `_price_with_source` from picker.py: fresh cache (default 15-minute
window) wins, else the live quote source, else an explicit missing marker. -/
def price_with_source (cachePrice cacheTs : Option ℚ) (cacheSource : Option String)
    (livePrice liveTs : Option ℚ) (liveSource : Option String)
    (now : ℚ) (max_age_minutes : ℚ := 15) : PriceInfo :=
  if cachePrice ≠ none ∧ is_recent cacheTs max_age_minutes now then
    { price := cachePrice, price_ts := cacheTs,
      price_source := some (pyOrSD cacheSource "cache_market_last"),
      is_fallback := 0, missing_price := 0 }
  else if livePrice ≠ none then
    { price := livePrice, price_ts := liveTs, price_source := liveSource,
      is_fallback := 0, missing_price := 0 }
  else
    { price := none, price_ts := none, price_source := some "missing",
      is_fallback := 0, missing_price := 1 }

/-- The per-ticker inputs `run_weekly_picker` gathers from the store and the
external sources before the selection stage: the `market_last` cache row, the
live quote result, the latest OCED and stock-ML rows, the 1-minute bar count,
the resolved chain (`get_option_chain` result plus its source tag), the
chosen expiry, the signal-feature statuses from `compute_signal_features`,
and the `_expected_move` value (kept as an input because its volatility
branch multiplies by the floating-point `sqrt(5/252)`, which has no exact
rational embedding; none of the verified properties depend on it). -/
structure TickerInput where
  ticker : String
  category : Option String := none
  cachePrice : Option ℚ := none
  cacheTs : Option ℚ := none
  cacheSource : Option String := none
  livePrice : Option ℚ := none
  liveTs : Option ℚ := none
  liveSource : Option String := none
  ocedRow : Option OcedRow := none
  mlRow : Option MlRow := none
  barCount : ℚ := 0
  quotes : List CQuote := []
  chainSource : String := "missing_chain"
  expiry : String := ""
  fftSignalStatus : String := ""
  fractalSignalStatus : String := ""
  expMove : Option ℚ := none

/-- Outcome of the per-ticker loop body of `run_weekly_picker`: either a
weekly-pick dictionary to persist, or a miss-log entry (stage, reason). -/
inductive PickOutcome where
  | persisted (p : PickRow)
  | missed (stage reason : String)
  deriving DecidableEq

/-- The per-ticker loop body of `run_weekly_picker` (picker.py): resolve
price, classify lane, select the chain contract, validate premium/yield and
provenance, and build the weekly-pick dictionary; every failed check lands in
the miss log instead. -/
def pickerProcessTicker (inp : TickerInput) (ts : String) (now : ℚ) : PickOutcome :=
  let info := price_with_source inp.cachePrice inp.cacheTs inp.cacheSource
      inp.livePrice inp.liveTs inp.liveSource now
  match info.price with
  | none => .missed "price" "missing_price"
  | some price =>
    let price_source := info.price_source
    let used_fallback : ℚ := if pyStartsWith (pyOrSD price_source "") "fallback:" then 1 else 0
    let bar_count := inp.barCount
    let hist_status := signal_status_from_bars bar_count
    let lane0 := resolve_lane inp.ocedRow
    let lane := if lane0 = "AGGRESSIVE"
      then lane_from_ann_vol (match inp.ocedRow with | some o => o.ann_vol | none => none) inp.category
      else lane0
    let pack_cost := pyRound2 (price * 100)
    let target_strike := select_strike (some price) inp.expMove lane
    let chain_quotes := inp.quotes
    let chain_source := inp.chainSource
    let option_source := option_source_tag (some chain_source) chain_quotes
    if chain_source ≠ "" ∧ pyStartsWith chain_source "flatfile:" then
      .missed "chain" "flatfile_fallback_disabled"
    else
      let sel := select_chain_option (some price) lane target_strike chain_quotes
      if chain_quotes.isEmpty then .missed "chain" "missing_chain_snapshot"
      else
        match sel.1 with
        | none => .missed "selection" (pyOrSD (some sel.2) "no_chain_match")
        | some picked =>
          let chain_bid := picked.bid
          let chain_ask := picked.ask
          let chain_mid := picked.mid
          let rec_spread := picked.spread_pct
          let option_contract := picked.contract
          let strike_val := picked.strike
          let prem_source := "chain_mid"
          let strike_source := pyOrSD (some picked.strike_source) "lane_otm_ranker_v1"
          let prem_100_calc := pyRound2 (chain_mid * 100)
          let prem_yield_calc := safe_div (some prem_100_calc) (some pack_cost)
          if chain_mid ≤ 0 then .missed "premium" "invalid_mid"
          else if prem_100_calc = price then .missed "premium" "invalid_premium"
          else
            match prem_yield_calc with
            | none => .missed "premium" "invalid_yield"
            | some yc =>
              if ¬(0 < yc ∧ yc < 1/2) then .missed "premium" "invalid_yield"
              else if |yc - 1/100| < 1/1000000 then .missed "premium" "constant_yield"
              else if ¬(truthyS price_source) ∨ chain_source = "" ∨ prem_source = "" ∨ strike_source = "" then
                .missed "provenance" "missing_provenance"
              else
                let base_score := final_rank_score_fn (some yc) inp.ocedRow
                let ml_adjust := ml_rank_adjust
                  (match inp.mlRow with | some m => m.regime_score | none => none)
                  (match inp.mlRow with | some m => m.downside_risk_5d | none => none)
                let final_score := base_score + ml_adjust
                let fft_status := if hist_status = "weekly_stable"
                  then (match inp.ocedRow with
                        | some o => if o.fft_entropy ≠ none then "ok" else inp.fftSignalStatus
                        | none => inp.fftSignalStatus)
                  else hist_status
                let fractal_status := if hist_status = "weekly_stable"
                  then (match inp.ocedRow with
                        | some o => if o.fractal_roughness ≠ none then "ok" else inp.fractalSignalStatus
                        | none => inp.fractalSignalStatus)
                  else hist_status
                let bars_1m_source := if bar_count ≠ 0 ∧ 0 < bar_count then "price_bars_1m" else "missing"
                .persisted
                  { ts := some ts,
                    ticker := some (pyUpperStrip inp.ticker),
                    category := inp.category,
                    lane := some lane,
                    rank := none,
                    score := some base_score,
                    rank_score := some final_score,
                    price := some price,
                    price_ts := info.price_ts,
                    price_source := price_source,
                    pack_100_cost := some pack_cost,
                    expiry := some inp.expiry,
                    strike := some strike_val,
                    option_contract := option_contract,
                    call_bid := chain_bid,
                    call_ask := chain_ask,
                    call_mid := some chain_mid,
                    prem_100 := some prem_100_calc,
                    prem_yield := some yc,
                    premium_100 := some prem_100_calc,
                    premium_yield := some yc,
                    premium_source := some (pyOrSD (some chain_source) "massive_rest:option_chain_snapshot"),
                    strike_source := some strike_source,
                    est_weekly_prem_100 := some prem_100_calc,
                    prem_yield_weekly := some yc,
                    safest_flag := some (if lane = "SAFE" then 1 else 0),
                    fft_status := some fft_status,
                    fractal_status := some fractal_status,
                    source := some "ws_cache",
                    final_rank_score := some final_score,
                    oced_rank_score := some base_score,
                    llm_rank_score := some ml_adjust,
                    combined_rank_score := some final_score,
                    recommended_expiry := some inp.expiry,
                    recommended_strike := some strike_val,
                    recommended_premium_100 := some prem_100_calc,
                    recommended_spread_pct := rec_spread,
                    bars_1m_count := some bar_count,
                    chain_source := some (pyOrSD (some chain_source) "massive_rest:option_chain_snapshot"),
                    prem_source := some prem_source,
                    bars_1m_source := some bars_1m_source,
                    premium_status := some "ok",
                    used_fallback := some used_fallback,
                    missing_price := some info.missing_price,
                    missing_chain := some 0,
                    chain_bid := chain_bid,
                    chain_ask := chain_ask,
                    chain_mid := some chain_mid,
                    option_source := some option_source,
                    is_fallback := some (if pyStartsWith (pyOrSD price_source "") "fallback:" ∨ option_source = "none" then 1 else 0) }

/-- Option coalescing on `is not None` (SQL-style COALESCE used by
`DB.upsert_weekly_pick`). -/
def coalesce {α : Type} (a b : Option α) : Option α :=
  match a with
  | some x => some x
  | none => b

/-- `DB.upsert_weekly_pick` from store.py: normalize the ticker (dropping the
row if it is empty) and coalesce the recommended/estimated aliases into the
canonical columns before the keyed insert. -/
def upsert_weekly_pick (row : PickRow) : Option PickRow :=
  let ticker_raw := pyUpperStrip (pyOrSD row.ticker "")
  if ticker_raw = "" then none
  else
    let expiry := pyOrS row.expiry row.recommended_expiry
    let strike := coalesce row.strike row.recommended_strike
    let call_bid := coalesce row.call_bid row.chain_bid
    let call_ask := coalesce row.call_ask row.chain_ask
    let call_mid := coalesce row.call_mid row.chain_mid
    let prem_100a := coalesce row.prem_100 row.recommended_premium_100
    let prem_100 := coalesce prem_100a row.est_weekly_prem_100
    let prem_yield := coalesce row.prem_yield row.prem_yield_weekly
    let premium_100 := coalesce row.premium_100 prem_100
    let premium_yield := coalesce row.premium_yield prem_yield
    some { row with
      ticker := some ticker_raw,
      expiry := expiry,
      strike := strike,
      call_bid := call_bid,
      call_ask := call_ask,
      call_mid := call_mid,
      prem_100 := prem_100,
      prem_yield := prem_yield,
      premium_100 := premium_100,
      premium_yield := premium_yield,
      est_weekly_prem_100 := pyOrQ row.est_weekly_prem_100 prem_100,
      prem_yield_weekly := pyOrQ row.prem_yield_weekly prem_yield,
      recommended_expiry := pyOrS row.recommended_expiry expiry,
      recommended_strike := pyOrQ row.recommended_strike strike,
      recommended_premium_100 := pyOrQ row.recommended_premium_100 prem_100 }

/-- The in-place rank assignment of the final ranking pass: a pick that made
the truncated, sorted valid list gets its 1-based position as rank; others
keep rank None. -/
def assignRank (topIdx : List ℕ) (ip : ℕ × PickRow) : PickRow :=
  match idxOfQ ip.1 topIdx with
  | some j => { ip.2 with rank := some ((j : ℚ) + 1) }
  | none => ip.2

/-- Sort key of the final ranking pass
(`p.get("final_rank_score", p.get("score", 0.0) or 0.0)`; both keys are
always present on picker-built rows). -/
def rankKey (p : PickRow) : ℚ :=
  p.final_rank_score.getD (pyOrQD p.score 0)

/-- `run_weekly_picker` from picker.py, downstream of input gathering: run
the per-ticker body over the (stable-ordered) universe, rank the valid picks
by final score descending (stable, 1-based, truncated to `top_n` unless
`top_n` is 0), and persist every built row through `upsert_weekly_pick`.
Returns the persisted rows and the miss-log entries. -/
def run_weekly_picker (inputs : List TickerInput) (ts : String) (now : ℚ)
    (top_n : ℕ := 10) : List PickRow × List (String × String × String) :=
  let outcomes := inputs.map (fun inp => (inp.ticker, pickerProcessTicker inp ts now))
  let misses := outcomes.filterMap (fun o =>
    match o.2 with
    | .missed stage reason => some (o.1, stage, reason)
    | .persisted _ => none)
  let picks := outcomes.filterMap (fun o =>
    match o.2 with
    | .persisted p => some p
    | .missed _ _ => none)
  let ipicks := enumQ picks
  let valid := ipicks.filter (fun ip =>
    ip.2.price ≠ none ∧ ip.2.strike ≠ none ∧ ip.2.call_mid ≠ none)
  let sorted := insertionSortB (fun a b => rankKey b.2 ≤ rankKey a.2) valid
  let truncated := sorted.take (if top_n = 0 then sorted.length else top_n)
  let topIdx := truncated.map (fun ip => ip.1)
  let ranked := ipicks.map (assignRank topIdx)
  let stored := ranked.filterMap upsert_weekly_pick
  (stored, misses)

end PickerMod

/-! ## watchlist.py and promotion.py: open positions and the promotion gate -/

namespace PromotionMod

open PickerMod

/-- One `option_positions` row (the fields the promotion gate touches). -/
structure PosRow where
  ticker : String
  expiry : String
  rightKind : String
  strike : ℚ
  qty : ℤ := 1
  status : String := "OPEN"
  deriving DecidableEq

/-- `Watchlists.add_contract` exactly as defined in watchlist.py: it accepts
(ticker, expiry, right, strike, qty) and nothing else, validates the right,
and inserts an OPEN position. -/
def add_contract (positions : List PosRow) (ticker expiry rightKind : String)
    (strike : ℚ) (qty : ℤ) : Except String (List PosRow) :=
  let t := pyUpperStrip ticker
  let r := pyUpperStrip rightKind
  if r = "C" ∨ r = "P" then
    .ok (positions ++ [{ ticker := t, expiry := expiry, rightKind := r,
                         strike := strike, qty := qty, status := "OPEN" }])
  else
    .error "right must be C or P"

/-- The `wl.add_contract(...)` call in promotion.py passes keyword arguments
`shares`, `stock_basis` and `premium_open` that watchlist.py's
`add_contract` signature does not accept, so in Python the call raises
`TypeError: add_contract() got an unexpected keyword argument ...` before the
body runs; the surrounding `except Exception` turns the decision into
"error". The embedding therefore always returns that error and never
consults `add_contract` itself. -/
def add_contract_promotion_call (positions : List PosRow)
    (ticker expiry : String) (strike : ℚ) (stock_basis premium_open : ℚ) :
    Except String (List PosRow) :=
  .error "TypeError: add_contract got an unexpected keyword argument shares"

/-- A key of the in-memory open-position set:
`(str(t).upper(), str(e), str(r).upper(), float(s))`. -/
def PosKey := String × String × String × ℚ
deriving instance DecidableEq for PosKey

/-- The `existing_keys` bootstrap query: keys of OPEN `option_positions`. -/
def open_position_keys (positions : List PosRow) : List PosKey :=
  positions.filterMap (fun r =>
    if r.status = "OPEN" then some (pyUpper r.ticker, r.expiry, pyUpper r.rightKind, r.strike)
    else none)

/-- A `promotions`-table ledger row written by `log_decision`; the
`sources` component stands for the JSON-serialized source snapshot
(price, chain, premium, strike sources). -/
structure PromRow where
  ts : String
  ticker : String
  expiry : String
  strike : ℚ
  lane : String
  seed : ℚ
  decision : String
  reason : String
  sources : Option (Option String × Option String × Option String × Option String) := none
  deriving DecidableEq

/-- The `PromotionResult` dataclass from promotion.py. -/
structure PromotionResult where
  ticker : String
  expiry : String
  strike : ℚ
  qty : ℤ
  skipped : Bool := false
  reason : Option String := none
  decision : Option String := none
  pack_cost : Option ℚ := none
  premium_open : Option ℚ := none
  deriving DecidableEq

/-- Outcome of one iteration of the gating loop. -/
structure CandResult where
  result : PromotionResult
  ledger : PromRow
  remaining : ℚ
  keys : List PosKey
  positions : List PosRow
  deriving DecidableEq

/-- One iteration body of the gating loop in `promote_from_weekly_picks`:
sequential gates (missing price/pack cost, over seed, duplicate open key,
insufficient bars, strike below spot, low yield) and, on promote, the
position insert attempt with budget deduction and key registration.
`mlEmove t` is `get_latest_stock_ml(t)["expected_move_5d"]` (None when the
ticker has no stock-ML row). -/
def eval_candidate (mlEmove : String → Option ℚ) (lane : Option String)
    (seed : ℚ) (defaultExpiry ts : String)
    (remaining : ℚ) (keys : List PosKey) (positions : List PosRow)
    (pick : PickRow) : CandResult :=
  let ticker := pyOrSD pick.ticker ""
  let price := pick.price
  let pack_cost := pick.pack_100_cost
  let prem_est := coalesce pick.prem_100 pick.est_weekly_prem_100
  let prem_yield := coalesce pick.prem_yield pick.prem_yield_weekly
  let bar_count := pyOrQD pick.bars_1m_count 0
  let recommended_strike := coalesce pick.strike pick.recommended_strike
  let rec_expiry := pyOrSD (pyOrS pick.expiry pick.recommended_expiry) defaultExpiry
  let emove := mlEmove ticker
  let strike_raw :=
    match recommended_strike with
    | some s => some s
    | none =>
      match price with
      | some p => select_strike (some p) emove (pyOrSD (pyOrS pick.lane lane) "SAFE_HIGH")
      | none => none
  let strike := pyRound2 (match strike_raw with
    | some s => s
    | none =>
      match price with
      | some p => if p = 0 then 0 else p * (105/100)
      | none => 0)
  let key : PosKey := (pyUpper ticker, rec_expiry, "C", strike)
  let gate : String × String :=
    if ticker = "" ∨ price = none ∨ pack_cost = none then ("skip", "missing_price")
    else if (match pack_cost with | some pc => decide (remaining < pc) | none => false) then
      ("skip", "over_seed")
    else if key ∈ keys then ("skip", "already_open")
    else if bar_count < 120 then ("skip", "insufficient_bars")
    else if (match recommended_strike, price with
             | some rs, some p => decide (rs < p)
             | _, _ => false) then ("skip", "strike_below_spot")
    else if (match prem_yield with | some y => decide (y < 2/1000) | none => false) then
      ("skip", "low_yield")
    else ("promote", "passed_gates")
  let attempt : String × String :=
    if gate.1 = "promote" then
      match add_contract_promotion_call positions ticker rec_expiry strike
          (pyOrQD price 0) (match prem_est with | some v => v | none => 0) with
      | .ok _ => ("promote", "passed_gates")
      | .error e => ("error", e)
    else gate
  let attemptState : ℚ × List PosKey × List PosRow :=
    if gate.1 = "promote" then
      match add_contract_promotion_call positions ticker rec_expiry strike
          (pyOrQD price 0) (match prem_est with | some v => v | none => 0) with
      | .ok newPositions =>
        (remaining - pyOrQD pack_cost 0, keys ++ [key], newPositions)
      | .error _ => (remaining, keys, positions)
    else (remaining, keys, positions)
  let sources := some (pick.price_source, pick.chain_source,
    pyOrS pick.premium_source pick.prem_source, pick.strike_source)
  { result :=
      { ticker := ticker, expiry := rec_expiry, strike := strike,
        qty := if attempt.1 = "promote" then 1 else 0,
        skipped := attempt.1 ≠ "promote",
        reason := some attempt.2, decision := some attempt.1,
        pack_cost := pack_cost, premium_open := prem_est },
    ledger :=
      { ts := ts, ticker := pyUpperStrip ticker, expiry := rec_expiry,
        strike := strike, lane := pyOrSD lane "ALL", seed := seed,
        decision := attempt.1, reason := attempt.2, sources := sources },
    remaining := attemptState.1,
    keys := attemptState.2.1,
    positions := attemptState.2.2 }

/-- The gating loop: process candidates in order, appending one result and
one ledger row per processed candidate, and stop (`break`) as soon as the
remaining budget is not positive at the end of an iteration. -/
def promo_loop (mlEmove : String → Option ℚ) (lane : Option String)
    (seed : ℚ) (defaultExpiry ts : String) :
    List PickRow → ℚ → List PosKey → List PosRow →
    List PromotionResult × List PromRow × List PosRow
  | [], _, _, positions => ([], [], positions)
  | p :: rest, remaining, keys, positions =>
    let c := eval_candidate mlEmove lane seed defaultExpiry ts remaining keys positions p
    if c.remaining ≤ 0 then ([c.result], [c.ledger], c.positions)
    else
      let out := promo_loop mlEmove lane seed defaultExpiry ts rest c.remaining c.keys c.positions
      (c.result :: out.1, c.ledger :: out.2.1, out.2.2)

/-- Weak lexicographic order on the promotion sort key
`(rank or 9999, -(final_rank_score or score or 0))`. -/
def lexLe (a b : ℚ × ℚ) : Bool := a.1 < b.1 ∨ (a.1 = b.1 ∧ a.2 ≤ b.2)

/-- The promotion sort key of one pick. -/
def promoSortKey (p : PickRow) : ℚ × ℚ :=
  (pyOrQD p.rank 9999, -(pyOrQD (pyOrQ p.final_rank_score p.score) 0))

/-- The candidate list the gating loop runs over: the latest picks filtered
by the requested lane (unless the lane is falsy or "ALL"), stable-sorted by
(rank, -score), truncated to `top_n` (0 disables truncation). -/
def promo_candidates (allPicks : List PickRow) (lane : Option String) (top_n : ℕ) :
    List PickRow :=
  let picks1 :=
    if truthyS lane ∧ pyUpper (pyOrSD lane "") ≠ "ALL" then
      allPicks.filter (fun p => pyUpper (pyOrSD p.lane "") = pyUpper (pyOrSD lane ""))
    else allPicks
  let picks2 := insertionSortB (fun a b => lexLe (promoSortKey a) (promoSortKey b)) picks1
  if top_n ≠ 0 then picks2.take top_n else picks2

/-- `promote_from_weekly_picks` from promotion.py: run the gating loop over
the lane-filtered, rank-sorted, top-N-truncated candidate list against the
seed budget and the OPEN-position key set. Returns (results, appended ledger
rows, final positions). -/
def promote_from_weekly_picks (allPicks : List PickRow) (positions : List PosRow)
    (mlEmove : String → Option ℚ) (seed : ℚ := 9300)
    (lane : Option String := some "SAFE_HIGH") (top_n : ℕ := 3)
    (defaultExpiry : String) (ts : String) :
    List PromotionResult × List PromRow × List PosRow :=
  promo_loop mlEmove lane seed defaultExpiry ts (promo_candidates allPicks lane top_n)
    seed (open_position_keys positions) positions

end PromotionMod

/-! ## ws_client.py: websocket client state machine and trigger engine -/

namespace WsClientMod

/-- The subscription-relevant state of `MassiveWSClient`: whether `self.ws`
exists (a connection was started), whether the auth handshake succeeded, and
the `subscribed_symbols` set (a Python `set`, so a `Finset`). -/
structure WSClientState where
  hasWs : Bool := false
  is_authenticated : Bool := false
  subscribed_symbols : Finset String := ∅
  deriving DecidableEq

/-- Outbound messages the client sends on the socket. -/
inductive SentMsg where
  | auth
  | subscribeMsg (params : Finset String)
  deriving DecidableEq

/-- The events that drive the subscription state machine: the websocket
callbacks (`_on_open`, `_on_close`), an inbound status event processed by
`_handle_event`, and a user call to `subscribe`. -/
inductive WSEvent where
  | onOpen
  | onClose
  | statusEvent (status : String)
  | subscribeCall (symbols : List String)
  deriving DecidableEq

/-- `subscribe` payload: `[f"AM.{sym.upper().strip()}" for sym in symbols]`
as a set. -/
def subPayload (symbols : List String) : Finset String :=
  (symbols.map (fun s => "AM." ++ pyUpperStrip s)).toFinset

/-- One step of the client state machine, returning the new state and the
messages sent during the step:
* `_on_open` calls `_authenticate` (sends the auth message);
* `_on_close` clears `is_authenticated` but keeps `subscribed_symbols`;
* a `status == "auth_success"` event sets `is_authenticated` and, when the
  subscription set is non-empty, re-sends it in one subscribe message
  (`_send_subscribe(list(self.subscribed_symbols))`);
* `subscribe(symbols)` queues the payload when unconnected or
  unauthenticated, else sends it and records it. -/
def clientStep (s : WSClientState) (ev : WSEvent) : WSClientState × List SentMsg :=
  match ev with
  | .onOpen => ({ s with hasWs := true }, [.auth])
  | .onClose => ({ s with is_authenticated := false }, [])
  | .statusEvent status =>
    if status = "auth_success" then
      let s2 := { s with is_authenticated := true }
      if s.subscribed_symbols.Nonempty then
        (s2, [.subscribeMsg s.subscribed_symbols])
      else (s2, [])
    else (s, [])
  | .subscribeCall symbols =>
    let payload := subPayload symbols
    if ¬s.hasWs ∨ ¬s.is_authenticated then
      ({ s with subscribed_symbols := s.subscribed_symbols ∪ payload }, [])
    else
      ({ s with subscribed_symbols := s.subscribed_symbols ∪ payload },
       [.subscribeMsg payload])

/-- Run the state machine over an event sequence, collecting sent messages. -/
def clientRun (s : WSClientState) : List WSEvent → WSClientState × List SentMsg
  | [] => (s, [])
  | ev :: rest =>
    let (s1, m1) := clientStep s ev
    let (s2, m2) := clientRun s1 rest
    (s2, m1 ++ m2)

/-- The mutable per-symbol state of `RealTimeTriggerEngine`: last seen price
and last trigger time (`last_trigger_ts.get(sym, 0.0)`), plus the open-strike
map loaded at construction (`defaultdict(list)`, missing symbol = []). -/
structure TriggerState where
  last_price : String → Option ℚ
  last_trigger_ts : String → ℚ
  contract_strikes : String → List ℚ

/-- `RealTimeTriggerEngine._cooldown_ok`. -/
def cooldown_ok (st : TriggerState) (cooldown_sec : ℚ) (sym : String) (now : ℚ) : Bool :=
  decide (cooldown_sec ≤ now - st.last_trigger_ts sym)

/-- The near-strike scan of `handle_bar`: some non-zero open strike `k` with
`abs(px - k) / k < near_strike_pct`. -/
def near_strike_check (strikes : List ℚ) (near_strike_pct px : ℚ) : Bool :=
  strikes.any (fun k => k ≠ 0 ∧ decide (|px - k| / k < near_strike_pct))

/-- The rapid-up check of `handle_bar`: a previous positive price with
`px / prev - 1.0 > rapid_up_pct`. -/
def rapid_up_check (prev : Option ℚ) (rapid_up_pct px : ℚ) : Bool :=
  match prev with
  | some pv => decide (0 < pv) && decide (rapid_up_pct < px / pv - 1)
  | none => false

/-- `RealTimeTriggerEngine.handle_bar` on a bar whose `sym` and `c` fields
are present and parseable (otherwise the method returns False and changes
nothing): updates the last price, fires when (near strike or rapid up) and
the cooldown has elapsed, and resets the cooldown timestamp on firing. The
returned Bool is what `make_monitor_bar_handler` uses to run the monitor
pass. -/
def handle_bar (st : TriggerState) (near_strike_pct rapid_up_pct cooldown_sec : ℚ)
    (symRaw : String) (px : ℚ) (now : ℚ) : Bool × TriggerState :=
  let sym := pyUpper symRaw
  let strikes := st.contract_strikes sym
  let near_strike := near_strike_check strikes near_strike_pct px
  let prev := st.last_price sym
  let rapid_up := rapid_up_check prev rapid_up_pct px
  let st1 : TriggerState :=
    { st with last_price := fun s => if s = sym then some px else st.last_price s }
  let triggered := (near_strike || rapid_up) && cooldown_ok st cooldown_sec sym now
  let st2 : TriggerState :=
    if triggered then
      { st1 with last_trigger_ts := fun s => if s = sym then now else st.last_trigger_ts s }
    else st1
  (triggered, st2)

end WsClientMod

/-! ## store.py market_last cache and ws_ingest.py streaming ingestion -/

namespace StoreMod

/-- One row of the `market_last` table (`price REAL NOT NULL`,
`source TEXT` nullable). -/
structure MarketLastRow where
  ticker : String
  ts : String
  price : ℚ
  source : Option String := none
  deriving DecidableEq

/-- `DB.set_market_last`: keyed INSERT OR REPLACE on the ticker; the
`source` parameter defaults to `None`. -/
def set_market_last (tbl : List MarketLastRow) (ticker ts : String) (price : ℚ)
    (source : Option String := none) : List MarketLastRow :=
  let t := pyUpperStrip ticker
  (tbl.filter (fun r => r.ticker ≠ t)) ++
    [{ ticker := t, ts := ts, price := price, source := source }]

/-- The Cached-Price invariant claimed by the spec: every row with a (non-null)
price carries a non-empty source tag. -/
def sourceTagInvariant (tbl : List MarketLastRow) : Prop :=
  ∀ r ∈ tbl, r.source ≠ none ∧ r.source ≠ some ""

end StoreMod

namespace WsIngestMod

open StoreMod

/-- An inbound websocket message as consumed by `ws_ingest.handle_msgs`
(attributes read via `getattr`; a missing attribute is `none`, and
`asset_class` defaults to `""`). -/
structure WSInMsg where
  event : Option String := none
  symbol : Option String := none
  asset_class : String := ""
  bid : Option ℚ := none
  ask : Option ℚ := none
  close : Option ℚ := none
  last : Option ℚ := none
  iv : Option ℚ := none
  delta : Option ℚ := none
  open_interest : Option ℚ := none
  volume : Option ℚ := none
  deriving DecidableEq

/-- The `market_last` writes performed by `ws_ingest.handle_msgs` (the
option-classified branch writes to `options_last`, a different table, and is
projected away here): a stock AM bar with a truthy close-or-last price is
written via `db.set_market_last(ticker=sym, ts=ts, price=price)` — with no
`source` argument, hence `source=None`. -/
def handle_msgs_market_last_writes (ts : String) (msgs : List WSInMsg) :
    List (String × String × ℚ × Option String) :=
  msgs.filterMap (fun m =>
    match m.event with
    | none => none
    | some ev =>
      if ev = "AM" then
        match m.symbol with
        | none => none
        | some sym =>
          let class_val := pyLower m.asset_class
          let is_option := strContains class_val "option" || decide (15 ≤ sym.data.length)
          if is_option then none
          else
            match pyOrQ m.close m.last with
            | none => none
            | some price => some (sym, ts, price, none)
      else none)

/-- Apply a list of `set_market_last` write records to the table. -/
def applyMarketLastWrites (tbl : List MarketLastRow) :
    List (String × String × ℚ × Option String) → List MarketLastRow
  | [] => tbl
  | (t, ts, p, src) :: rest =>
    applyMarketLastWrites (set_market_last tbl t ts p src) rest

end WsIngestMod

/-! ## Concrete scenarios -/

section Scenarios

open OptionsChainMod PickerMod PromotionMod

/-- Scenario A raw chain quote: one 155-strike call, bid 2.00, ask 2.20. -/
def scenarioA_raw : RawQuote := { strike := some 155, bid := some 2, ask := some (11/5) }

/-- Scenario A fetch environment: the live chain source returns exactly the
one raw quote; no flatfile fallback data. -/
def scenarioA_env : ChainEnv := { massiveRaw := [scenarioA_raw], flatBars := [] }

/-- Scenario A chain resolution: empty cache, live fetch at time 1000. -/
def scenarioA_fetch : ChainFetchResult :=
  OptionsChainMod.get_option_chain [] scenarioA_env "XYZ" "2025-10-17" 60 true 1000

/-- Scenario A picker input: a fresh cached price of 150.00 (cached 60s ago,
well inside the 15-minute window) and the resolved chain. -/
def scenarioA_input : TickerInput :=
  { ticker := "XYZ", cachePrice := some 150, cacheTs := some 940,
    cacheSource := some "ws:stocks_agg_1m",
    quotes := scenarioA_fetch.quotes, chainSource := scenarioA_fetch.source,
    expiry := "2025-10-17", barCount := 200, expMove := some 3 }

/-- Scenario A persisted weekly picks. -/
def scenarioA_stored : List PickRow :=
  (PickerMod.run_weekly_picker [scenarioA_input] "TS" 1000 10).1

/-- Scenario A promotion run with seed 9300 over the persisted pick. -/
def scenarioA_promotion : List PromotionResult × List PromRow × List PosRow :=
  PromotionMod.promote_from_weekly_picks scenarioA_stored [] (fun _ => none)
    9300 (some "SAFE_HIGH") 3 "2025-10-17" "TS"

/-- The single row Scenario A persists. -/
def scenarioA_row : PickRow := scenarioA_stored.headD {}

/-- A minimal gate candidate used to exercise the promotion loop. -/
def mkGatePick (ticker : String) (rank : ℚ) : PickRow :=
  { ticker := some ticker, lane := some "SAFE_HIGH", rank := some rank,
    price := some 10, pack_100_cost := some 1000,
    strike := some 12, recommended_strike := some 12,
    expiry := some "2025-10-17", bars_1m_count := some 200,
    prem_100 := some 10, prem_yield := some (1/100) }

/-- The two-candidate pick list of the budget counterexample. -/
def c4_picks : List PickRow := [mkGatePick "AAA" 1, mkGatePick "BBB" 2]

/-- Picker input whose chain is a cached row carrying only a mid (the shape
`_fetch_from_flatfiles` persists and `DB.get_option_chain` serves back:
`bid = ask = NULL`, `mid` from the bar close). -/
def c3_input : TickerInput :=
  { ticker := "XYZ", cachePrice := some 150, cacheTs := some 940,
    cacheSource := some "ws:stocks_agg_1m",
    quotes := [{ strike := some 160, mid := some (21/10), ts := some 900 }],
    chainSource := "cache:option_chain_snapshot",
    expiry := "2025-10-17", barCount := 200, expMove := some 3 }

end Scenarios

/-! ## Claim theorems -/

section ClaimTheorems

open OptionsChainMod PickerMod PromotionMod

/-- C2: Scenario A end to end. With a fresh cached price of 150.00 and a
chain holding exactly one 155-strike call with bid 2.00 / ask 2.20, the
pipeline computes mid = 2.10, premium_100 = 210.00, pack_100_cost = 15000.00
and yield = 210/15000 = 0.014 exactly, and the promotion gate with seed 9300
records a single skip decision with the over-budget reason ("over_seed"),
since the pack cost 15000 exceeds the seed. -/
theorem C2_scenario_a :
    scenarioA_stored.map (fun p =>
        (p.call_mid, p.premium_100, p.pack_100_cost, p.premium_yield)) =
      [(some (21/10), some 210, some 15000, some (14/1000))] ∧
    scenarioA_promotion.2.1.map (fun r => (r.decision, r.reason)) =
      [("skip", "over_seed")] := by
  constructor
  · norm_num +decide [scenarioA_stored, scenarioA_input, scenarioA_fetch, scenarioA_env,
      scenarioA_raw, OptionsChainMod.get_option_chain,
      db_get_option_chain, fetch_from_massive, normalize_quote, fetch_from_flatfiles,
      upsert_option_chain_rows, replaceChainRow, insertionSortB, orderedInsertB,
      pyOrQ, pyOrS, pyOrQD, pyOrSD, pyUpperStrip, pyUpper, pyStrip, pyStartsWith,
      truthyS, strContains, listContainsSub, safe_div, pyRound2,
      List.filter, List.filterMap, enumQ, enumFromQ, idxOfQ, Function.comp, abs_lt,
      PickerMod.run_weekly_picker, pickerProcessTicker, price_with_source, is_recent,
      resolve_lane, lane_from_metrics, lane_from_ann_vol, signal_status_from_bars,
      final_rank_score_fn, ml_rank_adjust, select_strike, option_source_tag,
      select_chain_option, selectCandidate, minByFirst, lexLt,
      laneMinYield, laneOtm, laneTargetDelta, rankKey, assignRank, upsert_weekly_pick, coalesce,
      Option.some_ne_none, decide_False, decide_True, Bool.not_false, Bool.not_true]
  · norm_num +decide [scenarioA_promotion, scenarioA_stored, scenarioA_input,
      scenarioA_fetch, scenarioA_env, scenarioA_raw, OptionsChainMod.get_option_chain,
      db_get_option_chain, fetch_from_massive, normalize_quote, fetch_from_flatfiles,
      upsert_option_chain_rows, replaceChainRow, insertionSortB, orderedInsertB,
      pyOrQ, pyOrS, pyOrQD, pyOrSD, pyUpperStrip, pyUpper, pyStrip, pyStartsWith,
      truthyS, strContains, listContainsSub, safe_div, pyRound2,
      List.filter, List.filterMap, enumQ, enumFromQ, idxOfQ, Function.comp, abs_lt,
      PickerMod.run_weekly_picker, pickerProcessTicker, price_with_source, is_recent,
      resolve_lane, lane_from_metrics, lane_from_ann_vol, signal_status_from_bars,
      final_rank_score_fn, ml_rank_adjust, select_strike, option_source_tag,
      select_chain_option, selectCandidate, minByFirst, lexLt,
      laneMinYield, laneOtm, laneTargetDelta, rankKey, assignRank, upsert_weekly_pick, coalesce,
      PromotionMod.promote_from_weekly_picks, promo_candidates, promo_loop, eval_candidate,
      open_position_keys, add_contract_promotion_call, promoSortKey, lexLe,
      Option.some_ne_none, decide_False, decide_True, Bool.not_false, Bool.not_true]

end ClaimTheorems

section PromotionLemmas

open PickerMod PromotionMod

/-- One gating iteration never changes the budget, the key set or the
positions: the promote branch's `wl.add_contract(...)` call always raises
(keyword-argument mismatch with watchlist.py), so the deduction and key
registration after it never execute. -/
theorem eval_candidate_state (mlEmove : String → Option ℚ) (lane : Option String)
    (seed : ℚ) (dE ts : String) (r : ℚ) (keys : List PosKey) (pos : List PosRow)
    (p : PickRow) :
    (eval_candidate mlEmove lane seed dE ts r keys pos p).remaining = r ∧
    (eval_candidate mlEmove lane seed dE ts r keys pos p).keys = keys ∧
    (eval_candidate mlEmove lane seed dE ts r keys pos p).positions = pos := by
  simp only [eval_candidate, add_contract_promotion_call, ite_self]
  simp

/-- The ledger timestamp is the only place the run timestamp appears: the
iteration's result and state are independent of it. -/
theorem eval_candidate_ts (mlEmove : String → Option ℚ) (lane : Option String)
    (seed : ℚ) (dE ts₁ ts₂ : String) (r : ℚ) (keys : List PosKey)
    (pos : List PosRow) (p : PickRow) :
    (eval_candidate mlEmove lane seed dE ts₁ r keys pos p).result =
      (eval_candidate mlEmove lane seed dE ts₂ r keys pos p).result := by
  simp only [eval_candidate, add_contract_promotion_call]

/-- The gating loop returns the positions it was given (no candidate ever
commits an insert). -/
theorem promo_loop_positions (mlEmove : String → Option ℚ) (lane : Option String)
    (seed : ℚ) (dE ts : String) :
    ∀ (l : List PickRow) (r : ℚ) (keys : List PosKey) (pos : List PosRow),
    (promo_loop mlEmove lane seed dE ts l r keys pos).2.2 = pos := by
  intro l
  induction l with
  | nil => intro r keys pos; simp [promo_loop]
  | cons p rest ih =>
    intro r keys pos
    have hs := eval_candidate_state mlEmove lane seed dE ts r keys pos p
    simp only [promo_loop]
    split
    · exact hs.2.2
    · rw [hs.1, hs.2.1, hs.2.2]
      exact ih r keys pos

/-- With a positive budget the loop never breaks: it emits exactly one
result and one ledger row per candidate, in candidate order, each computed
from the unchanged initial budget and key set. -/
theorem promo_loop_map (mlEmove : String → Option ℚ) (lane : Option String)
    (seed : ℚ) (dE ts : String) :
    ∀ (l : List PickRow) (r : ℚ) (keys : List PosKey) (pos : List PosRow),
    0 < r →
    promo_loop mlEmove lane seed dE ts l r keys pos =
      (l.map (fun p => (eval_candidate mlEmove lane seed dE ts r keys pos p).result),
       l.map (fun p => (eval_candidate mlEmove lane seed dE ts r keys pos p).ledger),
       pos) := by
  intro l
  induction l with
  | nil => intro r keys pos _; simp [promo_loop]
  | cons p rest ih =>
    intro r keys pos hr
    have hs := eval_candidate_state mlEmove lane seed dE ts r keys pos p
    simp only [promo_loop]
    rw [hs.1, hs.2.1, hs.2.2]
    rw [if_neg (by exact not_le.mpr hr)]
    rw [ih r keys pos hr]
    simp

/-- The decision/result sequence of the loop does not depend on the run
timestamp. -/
theorem promo_loop_results_ts (mlEmove : String → Option ℚ) (lane : Option String)
    (seed : ℚ) (dE ts₁ ts₂ : String) :
    ∀ (l : List PickRow) (r : ℚ) (keys : List PosKey) (pos : List PosRow),
    (promo_loop mlEmove lane seed dE ts₁ l r keys pos).1 =
      (promo_loop mlEmove lane seed dE ts₂ l r keys pos).1 := by
  intro l
  induction l with
  | nil => intro r keys pos; simp [promo_loop]
  | cons p rest ih =>
    intro r keys pos
    have hs₁ := eval_candidate_state mlEmove lane seed dE ts₁ r keys pos p
    have hs₂ := eval_candidate_state mlEmove lane seed dE ts₂ r keys pos p
    have hres := eval_candidate_ts mlEmove lane seed dE ts₁ ts₂ r keys pos p
    simp only [promo_loop]
    rw [hs₁.1, hs₁.2.1, hs₁.2.2, hs₂.1, hs₂.2.1, hs₂.2.2, hres]
    split
    · rfl
    · simp [ih r keys pos]

end PromotionLemmas

section ClaimTheorems2

open OptionsChainMod PickerMod PromotionMod

/-- C4 counterexample: with a non-positive seed the gating loop `break`s
after the first candidate, so the second lane-filtered, top-N candidate gets
no ledger row at all — the candidate list has two entries but only one
promotions row is written, contradicting the claim that every candidate gets
exactly one row. -/
theorem C4_counterexample :
    (promo_candidates c4_picks (some "SAFE_HIGH") 3).length = 2 ∧
    (promote_from_weekly_picks c4_picks [] (fun _ => none) 0 (some "SAFE_HIGH") 3
        "2025-10-17" "TS").2.1.length = 1 := by
  constructor
  · norm_num +decide [promo_candidates, c4_picks, mkGatePick, insertionSortB,
      orderedInsertB, lexLe, promoSortKey, pyOrQ, pyOrQD, pyOrSD, pyUpper, truthyS,
      List.filter]
  · norm_num +decide [promote_from_weekly_picks, promo_candidates, c4_picks, mkGatePick,
      insertionSortB, orderedInsertB, lexLe, promoSortKey, promo_loop, eval_candidate,
      open_position_keys, add_contract_promotion_call, select_strike, coalesce,
      pyOrQ, pyOrQD, pyOrS, pyOrSD, pyUpper, pyStrip, pyUpperStrip, truthyS, pyRound2,
      List.filter, Option.some_ne_none, decide_False, decide_True,
      Bool.not_false, Bool.not_true]

/-- C4 (amended): provided the seed budget is positive, the budget-exhausted
`break` is never reached (no promote attempt ever commits, so the remaining
budget never drops), and the run writes exactly one ledger row per candidate
of the lane-filtered, top-N-truncated list, in candidate order. With a
non-positive seed the loop stops after the first candidate and later
candidates get no row. -/
theorem C4_amended_ledger (allPicks : List PickRow) (positions : List PosRow)
    (mlEmove : String → Option ℚ) (seed : ℚ) (lane : Option String) (top_n : ℕ)
    (dE ts : String) (hseed : 0 < seed) :
    (promote_from_weekly_picks allPicks positions mlEmove seed lane top_n dE ts).2.1 =
      (promo_candidates allPicks lane top_n).map
        (fun p => (eval_candidate mlEmove lane seed dE ts seed
          (open_position_keys positions) positions p).ledger) := by
  unfold promote_from_weekly_picks
  rw [promo_loop_map mlEmove lane seed dE ts _ seed _ _ hseed]

/-- C4 witness: the amended theorem at the concrete two-candidate list with
the default seed 9300. -/
theorem C4_amended_ledger_witness :
    (0:ℚ) < 9300 ∧
    (promote_from_weekly_picks c4_picks [] (fun _ => none) 9300 (some "SAFE_HIGH") 3
        "2025-10-17" "TS").2.1 =
      (promo_candidates c4_picks (some "SAFE_HIGH") 3).map
        (fun p => (eval_candidate (fun _ => none) (some "SAFE_HIGH") 9300
          "2025-10-17" "TS" 9300 (open_position_keys []) [] p).ledger) :=
  ⟨by norm_num,
   C4_amended_ledger c4_picks [] (fun _ => none) 9300 (some "SAFE_HIGH") 3
     "2025-10-17" "TS" (by norm_num)⟩

/-- C5: re-running the promotion gate on the same pick set, lane, top-N and
seed — with the second run starting from the positions the first run left
behind — yields the identical (ticker, decision, reason) sequence. (No
promote attempt commits a position, so the first run leaves the
open-position set unchanged, and decisions do not depend on the run
timestamp.) -/
theorem C5_promotion_idempotent (allPicks : List PickRow) (positions : List PosRow)
    (mlEmove : String → Option ℚ) (seed : ℚ) (lane : Option String) (top_n : ℕ)
    (dE ts₁ ts₂ : String) :
    ((promote_from_weekly_picks allPicks
        ((promote_from_weekly_picks allPicks positions mlEmove seed lane top_n dE ts₁).2.2)
        mlEmove seed lane top_n dE ts₂).1).map (fun r => (r.ticker, r.decision, r.reason)) =
      ((promote_from_weekly_picks allPicks positions mlEmove seed lane top_n dE ts₁).1).map
        (fun r => (r.ticker, r.decision, r.reason)) := by
  have hpos : (promote_from_weekly_picks allPicks positions mlEmove seed lane top_n dE ts₁).2.2
      = positions := by
    unfold promote_from_weekly_picks
    exact promo_loop_positions mlEmove lane seed dE ts₁ _ seed _ positions
  rw [hpos]
  unfold promote_from_weekly_picks
  rw [promo_loop_results_ts mlEmove lane seed dE ts₂ ts₁]

/-- C10: the intended duplicate-open-contract guard is broken in the code.
Two candidates with the identical (ticker, expiry, C, strike) key that both
pass every gate should yield one promote and one "already_open" skip, but
the `wl.add_contract(...)` call raises TypeError (watchlist.py's signature
has no `shares`/`stock_basis`/`premium_open` parameters), so both candidates
are recorded as decision "error" with the exception text, the key is never
added to the in-memory set, and no "already_open" skip ever fires. -/
theorem C10_duplicate_key_eval :
    (promote_from_weekly_picks [mkGatePick "AAA" 1, mkGatePick "AAA" 2] []
        (fun _ => none) 9300 (some "SAFE_HIGH") 3 "2025-10-17" "TS").2.1.map
      (fun r => (r.decision, r.reason)) =
    [("error", "TypeError: add_contract got an unexpected keyword argument shares"),
     ("error", "TypeError: add_contract got an unexpected keyword argument shares")] := by
  norm_num +decide [promote_from_weekly_picks, promo_candidates, mkGatePick,
    insertionSortB, orderedInsertB, lexLe, promoSortKey, promo_loop, eval_candidate,
    open_position_keys, add_contract_promotion_call, select_strike, coalesce,
    pyOrQ, pyOrQD, pyOrS, pyOrSD, pyUpper, pyStrip, pyUpperStrip, truthyS, pyRound2,
    List.filter, Option.some_ne_none, decide_False, decide_True,
    Bool.not_false, Bool.not_true]

end ClaimTheorems2

section ClaimTheorems3

open OptionsChainMod PickerMod PromotionMod StoreMod WsIngestMod

/-- C3: the code persists a Weekly Pick with NULL `call_bid` and `call_ask`
when the selected quote carries only a mid (e.g. a cached flatfile-bootstrap
chain row), contradicting the claim — and the repository's own test
(tests/test_picker_validation.py) — that every persisted pick has non-null
strike, call_bid, call_ask and call_mid. The mid-only row passes every
picker gate and is stored with `call_bid = call_ask = None`. -/
theorem C3_null_bid_ask_eval :
    (PickerMod.run_weekly_picker [c3_input] "TS" 1000 10).1.map
      (fun p => (p.call_bid, p.call_ask, p.strike, p.call_mid, p.premium_100)) =
    [(none, none, some 160, some (21/10), some 210)] := by
  norm_num +decide [c3_input,
    insertionSortB, orderedInsertB,
    pyOrQ, pyOrS, pyOrQD, pyOrSD, pyUpperStrip, pyUpper, pyStrip, pyStartsWith,
    truthyS, strContains, listContainsSub, safe_div, pyRound2,
    List.filter, List.filterMap, enumQ, enumFromQ, idxOfQ, Function.comp, abs_lt,
    PickerMod.run_weekly_picker, pickerProcessTicker, price_with_source, is_recent,
    resolve_lane, lane_from_metrics, lane_from_ann_vol, signal_status_from_bars,
    final_rank_score_fn, ml_rank_adjust, select_strike, option_source_tag,
    select_chain_option, selectCandidate, minByFirst, lexLt,
    laneMinYield, laneOtm, laneTargetDelta, rankKey, assignRank, upsert_weekly_pick, coalesce,
    Option.some_ne_none, decide_False, decide_True, Bool.not_false, Bool.not_true]

/-- C9: the streaming ingestion path `ws_ingest.handle_msgs` writes a stock
price into the Cached Price table with `source=None` (its
`db.set_market_last(ticker=sym, ts=ts, price=price)` call omits the source
argument, whose default is None), so a non-null price is stored with a NULL
source tag — violating the claimed invariant that the source tag is
non-empty whenever the price is non-null. -/
theorem C9_null_source_eval :
    handle_msgs_market_last_writes "T0"
        [{ event := some "AM", symbol := some "AAPL", asset_class := "stocks",
           close := some 150 }] = [("AAPL", "T0", 150, none)] ∧
    applyMarketLastWrites []
        (handle_msgs_market_last_writes "T0"
          [{ event := some "AM", symbol := some "AAPL", asset_class := "stocks",
             close := some 150 }]) =
      [{ ticker := "AAPL", ts := "T0", price := 150, source := none }] ∧
    ¬ sourceTagInvariant
        [{ ticker := "AAPL", ts := "T0", price := 150, source := none }] := by
  refine ⟨?_, ?_, ?_⟩
  · norm_num +decide [handle_msgs_market_last_writes, pyOrQ, pyLower,
      strContains, listContainsSub, List.filterMap]
  · norm_num +decide [handle_msgs_market_last_writes, pyOrQ, pyLower,
      strContains, listContainsSub, List.filterMap,
      applyMarketLastWrites, set_market_last, pyUpperStrip, pyUpper, pyStrip,
      List.filter]
  · intro hinv
    have hmem := hinv (MarketLastRow.mk "AAPL" "T0" 150 none) (by simp)
    exact hmem.1 rfl

end ClaimTheorems3

section ChainCacheLemmas

open OptionsChainMod

/-- Stable insertion grows the list by one. -/
theorem orderedInsertB_length {α : Type} (le : α → α → Bool) (a : α) :
    ∀ l : List α, (orderedInsertB le a l).length = l.length + 1 := by
  intro l
  induction l with
  | nil => simp [orderedInsertB]
  | cons b t ih =>
    simp only [orderedInsertB]
    split
    · simp
    · simp [ih]

/-- The stable sort preserves length. -/
theorem insertionSortB_length {α : Type} (le : α → α → Bool) :
    ∀ l : List α, (insertionSortB le l).length = l.length := by
  intro l
  induction l with
  | nil => rfl
  | cons a t ih => simp [insertionSortB, orderedInsertB_length, ih]

/-- A keyed-replace fold of a non-empty row list leaves at least one of the
inserted rows in the table (the last one inserted always survives). -/
theorem foldl_replaceChainRow_mem :
    ∀ (rows : List ChainRow) (tbl : List ChainRow), rows ≠ [] →
    ∃ r ∈ rows, r ∈ rows.foldl replaceChainRow tbl := by
  intro rows
  induction rows with
  | nil => intro tbl h; exact absurd rfl h
  | cons a t ih =>
    intro tbl _
    cases t with
    | nil =>
      refine ⟨a, by simp, ?_⟩
      simp [replaceChainRow]
    | cons b t2 =>
      obtain ⟨r, hr, hmem⟩ := ih (replaceChainRow tbl a) (by simp)
      exact ⟨r, by simp [hr, List.mem_cons], hmem⟩

/-- Every row `chainRowOf` builds carries the normalized key and timestamp. -/
theorem chainRowOf_fields (tickerN expiryN : String) (ts : ℚ) (q : CQuote)
    (r : ChainRow) (h : chainRowOf tickerN expiryN ts q = some r) :
    r.ticker = tickerN ∧ r.expiry = expiryN ∧ r.ts = ts := by
  unfold chainRowOf at h
  cases hq : q.strike with
  | none => rw [hq] at h; exact absurd h (by simp)
  | some s =>
    rw [hq] at h
    cases h
    exact ⟨rfl, rfl, rfl⟩

/-- Upserting a row list containing at least one readable strike leaves a row
with the normalized key and the write timestamp in the table. -/
theorem upsert_option_chain_rows_mem (tbl : List ChainRow) (ticker expiry : String)
    (rows : List CQuote) (ts : ℚ) (q : CQuote) (hq : q ∈ rows)
    (hs : q.strike ≠ none) :
    ∃ r ∈ upsert_option_chain_rows tbl ticker expiry rows ts,
      r.ticker = pyUpperStrip ticker ∧ r.expiry = pyStrip expiry ∧ r.ts = ts := by
  obtain ⟨sv, hsv⟩ := Option.ne_none_iff_exists.mp hs
  have hcr : chainRowOf (pyUpperStrip ticker) (pyStrip expiry) ts q =
      some { ticker := pyUpperStrip ticker, expiry := pyStrip expiry, strike := sv,
             bid := q.bid, ask := q.ask, mid := q.mid, oi := q.oi, iv := q.iv,
             vol := q.vol, ts := ts } := by
    unfold chainRowOf
    rw [← hsv]
  have hne : rows.filterMap (chainRowOf (pyUpperStrip ticker) (pyStrip expiry) ts) ≠ [] := by
    intro hempty
    have hm : ({ ticker := pyUpperStrip ticker, expiry := pyStrip expiry, strike := sv,
                 bid := q.bid, ask := q.ask, mid := q.mid, oi := q.oi, iv := q.iv,
                 vol := q.vol, ts := ts } : ChainRow) ∈
        rows.filterMap (chainRowOf (pyUpperStrip ticker) (pyStrip expiry) ts) :=
      List.mem_filterMap.mpr ⟨q, hq, hcr⟩
    rw [hempty] at hm
    exact absurd hm (List.not_mem_nil _)
  have hrows : rows.isEmpty = false := by
    cases hrows : rows.isEmpty
    · rfl
    · rw [List.isEmpty_iff] at hrows
      rw [hrows] at hq
      exact absurd hq (List.not_mem_nil _)
  simp only [upsert_option_chain_rows, hrows, Bool.false_eq_true, if_false]
  rw [if_neg (by simpa using hne)]
  obtain ⟨r, hr, hmem⟩ := foldl_replaceChainRow_mem _ tbl hne
  obtain ⟨q2, _, hbuild⟩ := List.mem_filterMap.mp hr
  exact ⟨r, hmem, chainRowOf_fields _ _ _ _ _ hbuild⟩

/-- A fresh matching row makes the cached-chain read non-empty. -/
theorem db_get_option_chain_ne_nil (tbl : List ChainRow) (ticker expiry : String)
    (maxAge now : ℚ) (r : ChainRow) (hr : r ∈ tbl)
    (ht : r.ticker = pyUpperStrip ticker) (he : r.expiry = pyStrip expiry)
    (hts : now - maxAge * 60 ≤ r.ts) :
    db_get_option_chain tbl ticker expiry maxAge now ≠ [] := by
  unfold db_get_option_chain
  intro hempty
  have hmem : r ∈ tbl.filter (fun x =>
      x.ticker = pyUpperStrip ticker ∧ x.expiry = pyStrip expiry ∧
      now - maxAge * 60 ≤ x.ts) :=
    List.mem_filter.mpr ⟨hr, by simp [ht, he, hts]⟩
  have hlen : (tbl.filter (fun x =>
      x.ticker = pyUpperStrip ticker ∧ x.expiry = pyStrip expiry ∧
      now - maxAge * 60 ≤ x.ts)).length ≠ 0 := by
    intro h0
    rw [List.length_eq_zero] at h0
    rw [h0] at hmem
    exact absurd hmem (List.not_mem_nil _)
  have hlc := congrArg List.length hempty
  rw [List.length_map, insertionSortB_length] at hlc
  exact hlen (by simpa using hlc)

end ChainCacheLemmas

section ClaimTheorems4

open OptionsChainMod

/-- C6: resolver round-trip through the chain cache. If the first
`get_option_chain` call at time `t₁` misses the cache and the live source
returns a non-empty chain, then a second call for the same (ticker, expiry)
within the 60-minute freshness window (any live environment `env₂`) is
served from the cache: it returns exactly the cached rows, tagged
"cache:option_chain_snapshot", leaves the table unchanged, and does not
invoke the live source. -/
theorem C6_chain_cache_roundtrip (tbl : List ChainRow) (env env₂ : ChainEnv)
    (ticker expiry : String) (t₁ t₂ : ℚ)
    (h1 : db_get_option_chain tbl ticker expiry 60 t₁ = [])
    (h2 : fetch_from_massive env.massiveRaw ≠ [])
    (h3 : t₂ - t₁ ≤ 3600) :
    (get_option_chain tbl env ticker expiry 60 true t₁).source =
      "massive_rest:option_chain_snapshot" ∧
    (get_option_chain tbl env ticker expiry 60 true t₁).calledLive = true ∧
    get_option_chain (get_option_chain tbl env ticker expiry 60 true t₁).tbl
        env₂ ticker expiry 60 true t₂ =
      { quotes := db_get_option_chain
          (get_option_chain tbl env ticker expiry 60 true t₁).tbl ticker expiry 60 t₂,
        source := "cache:option_chain_snapshot",
        tbl := (get_option_chain tbl env ticker expiry 60 true t₁).tbl,
        calledLive := false } ∧
    db_get_option_chain (get_option_chain tbl env ticker expiry 60 true t₁).tbl
      ticker expiry 60 t₂ ≠ [] := by
  have hr1 : get_option_chain tbl env ticker expiry 60 true t₁ =
      { quotes := fetch_from_massive env.massiveRaw,
        source := "massive_rest:option_chain_snapshot",
        tbl := upsert_option_chain_rows tbl ticker expiry
          (fetch_from_massive env.massiveRaw) t₁,
        calledLive := true } := by
    unfold get_option_chain
    rw [h1]
    simp [List.isEmpty_iff, h2]
  obtain ⟨q, hqmem⟩ := List.exists_mem_of_ne_nil _ h2
  have hqstrike : q.strike ≠ none := by
    have hq2 : q ∈ (env.massiveRaw.map normalize_quote).filter
        (fun q => q.strike ≠ none) := by
      rw [fetch_from_massive] at hqmem
      exact hqmem
    simpa using (List.mem_filter.mp hq2).2
  obtain ⟨r, hrmem, hfields⟩ :=
    upsert_option_chain_rows_mem tbl ticker expiry _ t₁ q hqmem hqstrike
  have hfresh : t₂ - 60 * 60 ≤ r.ts := by
    rw [hfields.2.2]
    linarith
  have hcne : db_get_option_chain (upsert_option_chain_rows tbl ticker expiry
      (fetch_from_massive env.massiveRaw) t₁) ticker expiry 60 t₂ ≠ [] :=
    db_get_option_chain_ne_nil _ ticker expiry 60 t₂ r hrmem hfields.1 hfields.2.1 hfresh
  refine ⟨by rw [hr1], by rw [hr1], ?_, ?_⟩
  · rw [hr1]
    unfold get_option_chain
    simp [List.isEmpty_iff, hcne]
  · rw [hr1]
    exact hcne

/-- C6 witness: empty cache, a live source with one 100-strike quote, first
fetch at t=0, second at t=1800 (half the freshness window). -/
theorem C6_chain_cache_roundtrip_witness :
    (db_get_option_chain [] "XYZ" "2025-10-17" 60 0 = [] ∧
     fetch_from_massive [{ strike := some 100, bid := some 1, ask := some 2 }] ≠ [] ∧
     (1800:ℚ) - 0 ≤ 3600) ∧
    (get_option_chain []
        { massiveRaw := [{ strike := some 100, bid := some 1, ask := some 2 }],
          flatBars := [] } "XYZ" "2025-10-17" 60 true 0).source =
      "massive_rest:option_chain_snapshot" ∧
    get_option_chain (get_option_chain []
        { massiveRaw := [{ strike := some 100, bid := some 1, ask := some 2 }],
          flatBars := [] } "XYZ" "2025-10-17" 60 true 0).tbl
        { massiveRaw := [], flatBars := [] } "XYZ" "2025-10-17" 60 true 1800 =
      { quotes := db_get_option_chain (get_option_chain []
            { massiveRaw := [{ strike := some 100, bid := some 1, ask := some 2 }],
              flatBars := [] } "XYZ" "2025-10-17" 60 true 0).tbl "XYZ" "2025-10-17" 60 1800,
        source := "cache:option_chain_snapshot",
        tbl := (get_option_chain []
            { massiveRaw := [{ strike := some 100, bid := some 1, ask := some 2 }],
              flatBars := [] } "XYZ" "2025-10-17" 60 true 0).tbl,
        calledLive := false } := by
  have hh1 : db_get_option_chain [] "XYZ" "2025-10-17" 60 0 = [] := by
    norm_num [db_get_option_chain, insertionSortB, List.filter]
  have hh2 : fetch_from_massive
      [({ strike := some 100, bid := some 1, ask := some 2 } : RawQuote)] ≠ [] := by
    norm_num +decide [fetch_from_massive, normalize_quote, pyOrQ, pyOrS, List.filter,
      Option.some_ne_none, decide_False, decide_True, Bool.not_false, Bool.not_true]
  have hh3 : (1800:ℚ) - 0 ≤ 3600 := by norm_num
  have hmain := C6_chain_cache_roundtrip []
    { massiveRaw := [{ strike := some 100, bid := some 1, ask := some 2 }], flatBars := [] }
    { massiveRaw := [], flatBars := [] } "XYZ" "2025-10-17" 0 1800 hh1 hh2 hh3
  exact ⟨⟨hh1, hh2, hh3⟩, hmain.1, hmain.2.2.1⟩

end ClaimTheorems4

section ClaimTheorems5

open WsClientMod

/-- C7: after a drop (`_on_close`) and a reconnect (`_on_open` +
`auth_success`), the client re-authenticates and then re-issues exactly the
subscription set that was active at drop time in a single subscribe message —
the set is a Python set, so no symbol is duplicated, and the whole retained
set is sent, so none is omitted. A `subscribe` call made while disconnected /
unauthenticated sends nothing and is queued, and the queued payload is
flushed together with the retained set once authentication succeeds. -/
theorem C7_reconnect_resubscribe (s : WSClientState) (qs : List String)
    (hws : s.hasWs = true) (hauth : s.is_authenticated = true)
    (hsub : s.subscribed_symbols.Nonempty) :
    clientRun s [.onClose, .onOpen, .statusEvent "auth_success"] =
      ({ hasWs := true, is_authenticated := true,
         subscribed_symbols := s.subscribed_symbols },
       [.auth, .subscribeMsg s.subscribed_symbols]) ∧
    clientRun s [.onClose, .subscribeCall qs, .onOpen, .statusEvent "auth_success"] =
      ({ hasWs := true, is_authenticated := true,
         subscribed_symbols := s.subscribed_symbols ∪ subPayload qs },
       [.auth, .subscribeMsg (s.subscribed_symbols ∪ subPayload qs)]) := by
  have hsub2 : (s.subscribed_symbols ∪ subPayload qs).Nonempty :=
    hsub.mono Finset.subset_union_left
  constructor
  · simp [clientRun, clientStep, hws, hauth, hsub]
  · simp [clientRun, clientStep, hws, hauth, hsub, hsub2]

/-- C7 witness: a connected, authenticated client holding one subscription,
with one symbol subscribed during the outage. -/
theorem C7_reconnect_resubscribe_witness :
    ((({ hasWs := true, is_authenticated := true,
         subscribed_symbols := {"AM.AAPL"} } : WSClientState).hasWs = true) ∧
     (({ hasWs := true, is_authenticated := true,
         subscribed_symbols := {"AM.AAPL"} } : WSClientState).is_authenticated = true) ∧
     (({ hasWs := true, is_authenticated := true,
         subscribed_symbols := {"AM.AAPL"} } : WSClientState).subscribed_symbols.Nonempty)) ∧
    clientRun { hasWs := true, is_authenticated := true,
                subscribed_symbols := {"AM.AAPL"} }
      [.onClose, .onOpen, .statusEvent "auth_success"] =
      ({ hasWs := true, is_authenticated := true, subscribed_symbols := {"AM.AAPL"} },
       [.auth, .subscribeMsg {"AM.AAPL"}]) := by
  have h := C7_reconnect_resubscribe
    { hasWs := true, is_authenticated := true, subscribed_symbols := {"AM.AAPL"} }
    ["MSFT"] rfl rfl ⟨"AM.AAPL", by simp⟩
  exact ⟨⟨rfl, rfl, ⟨"AM.AAPL", by simp⟩⟩, h.1⟩

end ClaimTheorems5

section ClaimTheorems6

open WsClientMod

/-- The near-strike scan fires exactly when some non-zero open strike is
within the relative threshold. -/
theorem near_strike_check_iff (strikes : List ℚ) (np px : ℚ) :
    near_strike_check strikes np px = true ↔
      ∃ k ∈ strikes, k ≠ 0 ∧ |px - k| / k < np := by
  simp [near_strike_check, List.any_eq_true]

/-- The rapid-up check fires exactly when a positive previous price exists
and the relative rise exceeds the threshold. -/
theorem rapid_up_check_iff (prev : Option ℚ) (rp px : ℚ) :
    rapid_up_check prev rp px = true ↔
      ∃ pv, prev = some pv ∧ 0 < pv ∧ rp < px / pv - 1 := by
  cases prev <;> simp [rapid_up_check, and_assoc]

/-- The cooldown gate holds exactly when the cooldown interval has elapsed
since the symbol's last trigger. -/
theorem cooldown_ok_iff (st : TriggerState) (cd : ℚ) (sym : String) (now : ℚ) :
    cooldown_ok st cd sym now = true ↔ cd ≤ now - st.last_trigger_ts sym := by
  simp [cooldown_ok]

/-- C8: on a bar with symbol `symRaw` and close `px`, `handle_bar` fires the
monitor trigger if and only if (some non-zero open strike of the symbol is
within the near-strike threshold, or the price rose more than the rapid-move
threshold since the previous bar) and at least the cooldown interval has
elapsed since the symbol's last trigger; the last seen price is always
updated, and the cooldown timestamp is reset to `now` exactly when the
trigger fires. -/
theorem C8_trigger_fires_iff (st : TriggerState) (np rp cd : ℚ)
    (symRaw : String) (px now : ℚ) :
    ((handle_bar st np rp cd symRaw px now).1 = true ↔
      (((∃ k ∈ st.contract_strikes (pyUpper symRaw), k ≠ 0 ∧ |px - k| / k < np) ∨
        (∃ pv, st.last_price (pyUpper symRaw) = some pv ∧ 0 < pv ∧ rp < px / pv - 1)) ∧
       cd ≤ now - st.last_trigger_ts (pyUpper symRaw))) ∧
    (handle_bar st np rp cd symRaw px now).2.last_price (pyUpper symRaw) = some px ∧
    (handle_bar st np rp cd symRaw px now).2.last_trigger_ts (pyUpper symRaw) =
      (if (handle_bar st np rp cd symRaw px now).1 = true then now
       else st.last_trigger_ts (pyUpper symRaw)) := by
  refine ⟨?_, ?_, ?_⟩
  · rw [show (handle_bar st np rp cd symRaw px now).1 =
        ((near_strike_check (st.contract_strikes (pyUpper symRaw)) np px ||
          rapid_up_check (st.last_price (pyUpper symRaw)) rp px) &&
         cooldown_ok st cd (pyUpper symRaw) now) from rfl]
    rw [Bool.and_eq_true, Bool.or_eq_true]
    rw [near_strike_check_iff, rapid_up_check_iff, cooldown_ok_iff]
  · cases hcond : ((near_strike_check (st.contract_strikes (pyUpper symRaw)) np px ||
        rapid_up_check (st.last_price (pyUpper symRaw)) rp px) &&
        cooldown_ok st cd (pyUpper symRaw) now) with
    | true => simp [handle_bar, hcond]
    | false => simp [handle_bar, hcond]
  · cases hcond : ((near_strike_check (st.contract_strikes (pyUpper symRaw)) np px ||
        rapid_up_check (st.last_price (pyUpper symRaw)) rp px) &&
        cooldown_ok st cd (pyUpper symRaw) now) with
    | true => simp [handle_bar, hcond]
    | false => simp [handle_bar, hcond]

end ClaimTheorems6

section C1Lemmas

open OptionsChainMod PickerMod

/-- Inverting `_safe_div` on two present operands. -/
theorem safe_div_eq_some (a b y : ℚ) (h : safe_div (some a) (some b) = some y) :
    b ≠ 0 ∧ y = a / b := by
  simp only [safe_div] at h
  split at h
  · exact absurd h (by simp)
  · rename_i hb
    exact ⟨hb, (Option.some.inj h).symm⟩

/-- An enumerated member's payload is a member of the underlying list. -/
theorem mem_enumFromQ {α : Type} {ip : ℕ × α} :
    ∀ {i : ℕ} {l : List α}, ip ∈ enumFromQ i l → ip.2 ∈ l := by
  intro i l
  induction l generalizing i with
  | nil => intro h; exact absurd h (List.not_mem_nil _)
  | cons a t ih =>
    intro h
    rw [enumFromQ, List.mem_cons] at h
    rcases h with h | h
    · rw [h]; exact List.mem_cons_self _ _
    · exact List.mem_cons_of_mem _ (ih h)

/-- An enumerated member's payload is a member of the underlying list. -/
theorem mem_enumQ {α : Type} {ip : ℕ × α} {l : List α} (h : ip ∈ enumQ l) :
    ip.2 ∈ l := mem_enumFromQ h

/-- Rank assignment touches only the rank field. -/
theorem assignRank_fields (topIdx : List ℕ) (ip : ℕ × PickRow) :
    (assignRank topIdx ip).price = ip.2.price ∧
    (assignRank topIdx ip).call_mid = ip.2.call_mid ∧
    (assignRank topIdx ip).pack_100_cost = ip.2.pack_100_cost ∧
    (assignRank topIdx ip).premium_100 = ip.2.premium_100 ∧
    (assignRank topIdx ip).premium_yield = ip.2.premium_yield ∧
    (assignRank topIdx ip).call_bid = ip.2.call_bid ∧
    (assignRank topIdx ip).call_ask = ip.2.call_ask := by
  unfold assignRank
  split <;> simp

/-- Coalescing keeps a present left operand. -/
theorem coalesce_eq_left {α : Type} (x b : Option α) (h : x ≠ none) :
    coalesce x b = x := by
  cases x with
  | none => exact absurd rfl h
  | some v => rfl

/-- `DB.upsert_weekly_pick` preserves the already-present canonical premium,
yield, price and pack-cost columns of a stored row. -/
theorem upsert_weekly_pick_fields (r p : PickRow) (h : upsert_weekly_pick r = some p)
    (hm : r.call_mid ≠ none) (h100 : r.premium_100 ≠ none) (hy : r.premium_yield ≠ none) :
    p.call_mid = r.call_mid ∧ p.premium_100 = r.premium_100 ∧
    p.premium_yield = r.premium_yield ∧ p.pack_100_cost = r.pack_100_cost ∧
    p.price = r.price := by
  simp only [upsert_weekly_pick] at h
  split at h
  · exact absurd h (by simp)
  · have h9 := Option.some.inj h
    subst h9
    refine ⟨?_, ?_, ?_, rfl, rfl⟩
    · show coalesce r.call_mid r.chain_mid = r.call_mid
      exact coalesce_eq_left _ _ hm
    · show coalesce r.premium_100
          (coalesce (coalesce r.prem_100 r.recommended_premium_100) r.est_weekly_prem_100) =
        r.premium_100
      exact coalesce_eq_left _ _ h100
    · show coalesce r.premium_yield (coalesce r.prem_yield r.prem_yield_weekly) =
        r.premium_yield
      exact coalesce_eq_left _ _ hy

end C1Lemmas

section C1Main

open OptionsChainMod PickerMod

set_option maxHeartbeats 2000000 in
/-- Every weekly-pick dictionary the per-ticker loop body emits has
internally consistent premium math: the premium is exactly the rounded
`mid * 100`, the pack cost is exactly the rounded `price * 100` and is
non-zero, and the yield is exactly their quotient. -/
theorem pickerProcessTicker_persisted (inp : TickerInput) (ts : String) (now : ℚ)
    (p : PickRow) (h : pickerProcessTicker inp ts now = .persisted p) :
    ∃ price m y,
      p.price = some price ∧ p.call_mid = some m ∧
      p.pack_100_cost = some (pyRound2 (price * 100)) ∧
      p.premium_100 = some (pyRound2 (m * 100)) ∧
      p.premium_yield = some y ∧
      pyRound2 (price * 100) ≠ 0 ∧
      y = pyRound2 (m * 100) / pyRound2 (price * 100) := by
  simp only [pickerProcessTicker] at h
  split at h
  · exact absurd h (by simp)
  split at h
  · exact absurd h (by simp)
  split at h
  · exact absurd h (by simp)
  split at h
  · exact absurd h (by simp)
  split at h
  · exact absurd h (by simp)
  split at h
  · exact absurd h (by simp)
  split at h
  · exact absurd h (by simp)
  split at h
  · exact absurd h (by simp)
  split at h
  · exact absurd h (by simp)
  split at h
  · exact absurd h (by simp)
  rename_i heqdiv hrange habs hprov
  injection h with h9
  subst h9
  obtain ⟨hb, hyv⟩ := safe_div_eq_some _ _ _ heqdiv
  exact ⟨_, _, _, rfl, rfl, rfl, rfl, rfl, hb, hyv⟩

end C1Main

section C1Final

open OptionsChainMod PickerMod

/-- C1: every Weekly Pick row the picker persists satisfies the premium and
yield invariants: `premium_100` equals `round(call_mid*100, 2)` (hence within
0.01), `pack_100_cost` equals `round(price*100, 2)` of the resolved spot
price and is non-zero, and `premium_yield` differs from
`premium_100 / pack_100_cost` by less than 1e-4 (here: exactly 0). -/
theorem C1_persisted_premium_yield (inputs : List TickerInput) (ts : String)
    (now : ℚ) (top_n : ℕ) (p : PickRow)
    (hp : p ∈ (run_weekly_picker inputs ts now top_n).1) :
    p.price ≠ none ∧ p.call_mid ≠ none ∧ p.premium_100 ≠ none ∧
    p.premium_yield ≠ none ∧
    p.pack_100_cost = some (pyRound2 (p.price.getD 0 * 100)) ∧
    p.pack_100_cost.getD 0 ≠ 0 ∧
    |p.premium_100.getD 0 - pyRound2 (p.call_mid.getD 0 * 100)| ≤ 1/100 ∧
    |p.premium_yield.getD 0 - p.premium_100.getD 0 / p.pack_100_cost.getD 0| < 1/10000 := by
  simp only [run_weekly_picker] at hp
  rw [List.mem_filterMap] at hp
  obtain ⟨r, hr, hup⟩ := hp
  rw [List.mem_map] at hr
  obtain ⟨ip, hip, hfr⟩ := hr
  have hip2 := mem_enumQ hip
  rw [List.mem_filterMap] at hip2
  obtain ⟨o, ho, hmatch⟩ := hip2
  rw [List.mem_map] at ho
  obtain ⟨inp, hinp, ho2⟩ := ho
  subst ho2
  have hpersist : pickerProcessTicker inp ts now = .persisted ip.2 := by
    cases hpo : pickerProcessTicker inp ts now with
    | persisted q =>
      rw [hpo] at hmatch
      simp at hmatch
      exact congrArg PickOutcome.persisted hmatch
    | missed a b =>
      rw [hpo] at hmatch
      simp at hmatch
  obtain ⟨price, m, y, hprice, hmid, hpack, hprem, hyield, hnz, hyv⟩ :=
    pickerProcessTicker_persisted inp ts now ip.2 hpersist
  have hrmid : r.call_mid = some m := by
    rw [← hfr, (assignRank_fields _ ip).2.1, hmid]
  have hr100 : r.premium_100 = some (pyRound2 (m * 100)) := by
    rw [← hfr, (assignRank_fields _ ip).2.2.2.1, hprem]
  have hry : r.premium_yield = some y := by
    rw [← hfr, (assignRank_fields _ ip).2.2.2.2.1, hyield]
  have hrpack : r.pack_100_cost = some (pyRound2 (price * 100)) := by
    rw [← hfr, (assignRank_fields _ ip).2.2.1, hpack]
  have hrprice : r.price = some price := by
    rw [← hfr, (assignRank_fields _ ip).1, hprice]
  obtain ⟨um, u100, uy, upack, uprice⟩ := upsert_weekly_pick_fields r p hup
    (by rw [hrmid]; simp) (by rw [hr100]; simp) (by rw [hry]; simp)
  rw [hrmid] at um
  rw [hr100] at u100
  rw [hry] at uy
  rw [hrpack] at upack
  rw [hrprice] at uprice
  refine ⟨by rw [uprice]; simp, by rw [um]; simp, by rw [u100]; simp,
          by rw [uy]; simp, ?_, ?_, ?_, ?_⟩
  · rw [upack, uprice]
    simp
  · rw [upack]
    simpa using hnz
  · rw [u100, um]
    simp
  · rw [uy, u100, upack]
    simp only [Option.getD_some]
    rw [hyv]
    simp

end C1Final

section C1Witness

open OptionsChainMod PickerMod

/-- C1 witness: the invariant theorem applied to the concrete Scenario A run
and its persisted row. -/
theorem C1_persisted_premium_yield_witness :
    scenarioA_row ∈ (PickerMod.run_weekly_picker [scenarioA_input] "TS" 1000 10).1 ∧
    (scenarioA_row.price ≠ none ∧ scenarioA_row.call_mid ≠ none ∧
     scenarioA_row.premium_100 ≠ none ∧ scenarioA_row.premium_yield ≠ none ∧
     scenarioA_row.pack_100_cost = some (pyRound2 (scenarioA_row.price.getD 0 * 100)) ∧
     scenarioA_row.pack_100_cost.getD 0 ≠ 0 ∧
     |scenarioA_row.premium_100.getD 0 -
        pyRound2 (scenarioA_row.call_mid.getD 0 * 100)| ≤ 1/100 ∧
     |scenarioA_row.premium_yield.getD 0 -
        scenarioA_row.premium_100.getD 0 / scenarioA_row.pack_100_cost.getD 0| < 1/10000) := by
  have hmem : scenarioA_row ∈ (PickerMod.run_weekly_picker [scenarioA_input] "TS" 1000 10).1 := by
    norm_num +decide [scenarioA_row, scenarioA_stored, scenarioA_input, scenarioA_fetch,
      scenarioA_env, scenarioA_raw, OptionsChainMod.get_option_chain,
      db_get_option_chain, fetch_from_massive, normalize_quote, fetch_from_flatfiles,
      upsert_option_chain_rows, replaceChainRow, chainRowOf, insertionSortB, orderedInsertB,
      pyOrQ, pyOrS, pyOrQD, pyOrSD, pyUpperStrip, pyUpper, pyStrip, pyStartsWith,
      truthyS, strContains, listContainsSub, safe_div, pyRound2,
      List.filter, List.filterMap, enumQ, enumFromQ, idxOfQ, Function.comp, abs_lt,
      PickerMod.run_weekly_picker, pickerProcessTicker, price_with_source, is_recent,
      resolve_lane, lane_from_metrics, lane_from_ann_vol, signal_status_from_bars,
      final_rank_score_fn, ml_rank_adjust, select_strike, option_source_tag,
      select_chain_option, selectCandidate, minByFirst, lexLt, List.headD,
      laneMinYield, laneOtm, laneTargetDelta, rankKey, assignRank, upsert_weekly_pick, coalesce,
      Option.some_ne_none, decide_False, decide_True, Bool.not_false, Bool.not_true]
  exact ⟨hmem, C1_persisted_premium_yield [scenarioA_input] "TS" 1000 10 scenarioA_row hmem⟩

end C1Witness
